import Mathlib

/-!
Verification of the medical-compatibility analyzer.

This file shallowly embeds the parts of the TypeScript source that the
verified properties speak about:

* the contraindication matcher and risk-scoring engine from
  `client/src/components/dashboard/specialty-breakdown.tsx`,
* the fuzzy medication matcher (Levenshtein similarity) from the same file,
* the circuit breaker from `server/storage.ts`,
* the caches, quota accounting and fallback logic of
  `server/services/medicationService.ts` and `server/services/icd10Service.ts`.

Strings are modelled by `String` with explicit helper functions mirroring
the JavaScript string operations used by the source (`includes`,
`toLowerCase`, `trim`, `startsWith`, lexicographic comparison).  JavaScript
numbers are modelled by `ℚ` (all literals appearing in the source tables are
exactly representable decimals and every comparison performed by the code is
robust, i.e. never between values whose rational and floating-point
comparisons could differ by rounding of the table constants).  Timestamps
(`Date.now()`) are modelled by `ℤ` milliseconds.  Stateful methods become
pure functions from the relevant state to the new state, and `async`
remote calls become an explicit `RemoteOutcome` argument describing what the
`fetch` would have produced.
-/

/-! ## JavaScript string primitives -/

/-- JavaScript `s.includes(sub)`: `sub` occurs contiguously in `s`.
(`"".includes` and `s.includes("")` are `true`, matching `List.IsInfix` with
the empty list.) -/
def jsIncludes (s sub : String) : Bool :=
  decide (sub.data <:+: s.data)

/-- JavaScript `s.startsWith(pre)`. -/
def jsStartsWith (s pre : String) : Bool :=
  decide (pre.data <+: s.data)

/-- JavaScript `s.toLowerCase()` (ASCII, which is all the source uses). -/
def jsToLower (s : String) : String :=
  ⟨s.data.map Char.toLower⟩

/-- JavaScript `s.toUpperCase()` (ASCII). -/
def jsToUpper (s : String) : String :=
  ⟨s.data.map Char.toUpper⟩

/-- JavaScript `s.trim()`: strip whitespace from both ends. -/
def jsTrim (s : String) : String :=
  ⟨(s.data.dropWhile Char.isWhitespace).reverse.dropWhile Char.isWhitespace |>.reverse⟩

/-- JavaScript `charAt(0).toUpperCase()` of a string, as an optional
character (`charAt(0)` of `""` is `""`, which hits no table entry). -/
def jsFirstCharUpper (s : String) : Option Char :=
  s.data.head?.map Char.toUpper

/-- JavaScript `Math.max` on two numbers. -/
def ratMax (a b : ℚ) : ℚ := if b > a then b else a

/-- JavaScript `Math.min` on two numbers. -/
def ratMin (a b : ℚ) : ℚ := if a > b then b else a

/-! ## Client-side matcher data model
(`specialty-breakdown.tsx`).  Severity strings are kept as `String`, as in
the loosely-typed source. -/

structure MedicationContraindication where
  condition : String
  severity : String
  description : String
deriving DecidableEq, Repr

/-- One entry of `getComprehensiveMedicalTerminologyMappings()[i].conditions`. -/
structure CondEntry where
  term : String
  synonyms : List String
  severity : ℚ
deriving DecidableEq, Repr

/-- One category of `getComprehensiveMedicalTerminologyMappings()`. -/
structure TermCategory where
  category : String
  keywords : List String
  conditions : List CondEntry
deriving DecidableEq, Repr

/-- `getComprehensiveMedicalTerminologyMappings` (specialty-breakdown.tsx). -/
def getComprehensiveMedicalTerminologyMappings : List TermCategory :=
  [ { category := "Cardiovascular"
    , keywords := ["heart", "cardiac", "cardio", "myocardial", "coronary", "arrhythmia", "hypertension"]
    , conditions :=
        [ { term := "heart failure", synonyms := ["cardiac failure", "congestive heart failure", "chf"], severity := 0.9 }
        , { term := "myocardial infarction", synonyms := ["heart attack", "mi", "acute coronary syndrome"], severity := 0.95 }
        , { term := "arrhythmia", synonyms := ["irregular heartbeat", "dysrhythmia", "atrial fibrillation"], severity := 0.8 }
        , { term := "hypertension", synonyms := ["high blood pressure", "elevated blood pressure"], severity := 0.7 } ] }
  , { category := "Renal"
    , keywords := ["kidney", "renal", "nephro", "glomerular", "creatinine"]
    , conditions :=
        [ { term := "kidney disease", synonyms := ["renal disease", "nephropathy", "renal impairment"], severity := 0.9 }
        , { term := "kidney failure", synonyms := ["renal failure", "acute kidney injury", "chronic kidney disease"], severity := 0.95 }
        , { term := "dialysis", synonyms := ["hemodialysis", "peritoneal dialysis"], severity := 0.85 } ] }
  , { category := "Hepatic"
    , keywords := ["liver", "hepatic", "hepato", "cirrhosis", "jaundice"]
    , conditions :=
        [ { term := "liver disease", synonyms := ["hepatic disease", "hepatopathy"], severity := 0.9 }
        , { term := "liver failure", synonyms := ["hepatic failure", "acute liver failure"], severity := 0.95 }
        , { term := "cirrhosis", synonyms := ["hepatic cirrhosis", "liver cirrhosis"], severity := 0.9 } ] }
  , { category := "Respiratory"
    , keywords := ["lung", "respiratory", "pulmonary", "asthma", "copd", "broncho"]
    , conditions :=
        [ { term := "asthma", synonyms := ["bronchial asthma", "allergic asthma"], severity := 0.8 }
        , { term := "copd", synonyms := ["chronic obstructive pulmonary disease", "emphysema"], severity := 0.85 }
        , { term := "respiratory failure", synonyms := ["acute respiratory distress"], severity := 0.9 } ] }
  , { category := "Endocrine"
    , keywords := ["diabetes", "diabetic", "thyroid", "adrenal", "insulin"]
    , conditions :=
        [ { term := "diabetes", synonyms := ["diabetes mellitus", "diabetic", "dm"], severity := 0.8 }
        , { term := "hyperthyroidism", synonyms := ["overactive thyroid", "thyrotoxicosis"], severity := 0.8 }
        , { term := "hypothyroidism", synonyms := ["underactive thyroid", "myxedema"], severity := 0.7 } ] }
  , { category := "Neurological"
    , keywords := ["seizure", "epilepsy", "stroke", "neurological", "brain"]
    , conditions :=
        [ { term := "seizure", synonyms := ["epilepsy", "convulsion", "epileptic"], severity := 0.85 }
        , { term := "stroke", synonyms := ["cerebrovascular accident", "cva"], severity := 0.9 }
        , { term := "brain injury", synonyms := ["traumatic brain injury", "tbi"], severity := 0.85 } ] } ]

/-- `calculateMatchConfidence` (specialty-breakdown.tsx).  The two boosts are
applied sequentially, each clamped at 0.95, exactly as the source mutates
`baseConfidence`. -/
def calculateMatchConfidence (diagnosisLower : String) (bestMatch : CondEntry)
    (category : String) : ℚ :=
  let base := bestMatch.severity
  let base := if jsIncludes diagnosisLower bestMatch.term then ratMin 0.95 (base + 0.1) else base
  let highRiskCategories : List String := ["Cardiovascular", "Renal", "Hepatic"]
  if highRiskCategories.contains category then ratMin 0.95 (base + 0.05) else base

/-- The filter predicate of `checkEnhancedMedicalTerminology` on a condition
entry. -/
def condEntryHits (conditionLower descriptionLower : String) (c : CondEntry) : Bool :=
  jsIncludes conditionLower c.term || jsIncludes descriptionLower c.term ||
    c.synonyms.any fun synonym =>
      jsIncludes conditionLower synonym || jsIncludes descriptionLower synonym

/-- The `reduce` picking the highest-severity entry
(`current.severity > best.severity ? current : best`), starting from the
first list element, as JavaScript `Array.reduce` does. -/
def pickHighestSeverity (first : CondEntry) (rest : List CondEntry) : CondEntry :=
  rest.foldl (fun best current => if current.severity > best.severity then current else best) first

/-- `checkEnhancedMedicalTerminology` (specialty-breakdown.tsx), returning
`(confidence, reasoning)`.  The `icd10Lower`/`specialty` parameters are
unused by the source body, and are kept for signature fidelity. -/
def checkEnhancedMedicalTerminology (diagnosisLower _icd10Lower conditionLower descriptionLower _specialty : String) :
    ℚ × String :=
  getComprehensiveMedicalTerminologyMappings.foldl
    (fun acc category =>
      let diagnosisMatch := category.keywords.any fun keyword =>
        jsIncludes diagnosisLower keyword || jsIncludes keyword diagnosisLower
      if diagnosisMatch then
        match category.conditions.filter (condEntryHits conditionLower descriptionLower) with
        | [] => acc
        | c :: cs =>
          let bestMatch := pickHighestSeverity c cs
          let confidence := calculateMatchConfidence diagnosisLower bestMatch category.category
          if confidence > acc.1 then
            (confidence, category.category ++ " terminology match: " ++ bestMatch.term)
          else acc
      else acc)
    (0, "")

/-- One entry of `getMedicalSynonymDatabase()`. -/
structure SynGroup where
  key : String
  synonyms : List String
  confidence : ℚ
deriving DecidableEq, Repr

/-- `getMedicalSynonymDatabase` (specialty-breakdown.tsx). -/
def getMedicalSynonymDatabase : List SynGroup :=
  [ { key := "diabetes", synonyms := ["diabetic", "dm", "diabetes mellitus", "hyperglycemia", "insulin resistance"], confidence := 0.9 }
  , { key := "kidney", synonyms := ["renal", "nephro", "kidney disease", "renal disease", "nephropathy"], confidence := 0.9 }
  , { key := "heart", synonyms := ["cardiac", "cardio", "myocardial", "coronary", "cardiovascular"], confidence := 0.9 }
  , { key := "liver", synonyms := ["hepatic", "hepato", "liver disease", "hepatopathy"], confidence := 0.9 }
  , { key := "lung", synonyms := ["pulmonary", "respiratory", "bronchial", "alveolar"], confidence := 0.85 }
  , { key := "asthma", synonyms := ["bronchial asthma", "allergic asthma", "bronchospasm"], confidence := 0.85 }
  , { key := "hypertension", synonyms := ["high blood pressure", "elevated blood pressure", "htn"], confidence := 0.8 }
  , { key := "seizure", synonyms := ["epilepsy", "epileptic", "convulsion", "fit"], confidence := 0.85 }
  , { key := "pregnancy", synonyms := ["pregnant", "gestation", "prenatal", "maternal"], confidence := 0.95 }
  , { key := "elderly", synonyms := ["geriatric", "aged", "senior", "older adult"], confidence := 0.8 } ]

/-- Split on runs of whitespace, dropping empty pieces.  The JavaScript
`text.split(/\s+/)` can additionally produce one empty string for a
leading-whitespace input; that empty word is discarded by every consumer
(it is neither longer than 4 characters nor a medical root), so the two
splits are interchangeable in context. -/
def splitWs (s : String) : List String :=
  (s.data.splitOnP Char.isWhitespace).filterMap fun w =>
    if w.isEmpty then none else some ⟨w⟩

/-- `extractMedicalTerms` (specialty-breakdown.tsx).  JavaScript
`Array.from(new Set(...))` deduplicates keeping first occurrences; the
consumers only test membership, so `List.eraseDups`-style dedup or none at
all are equivalent — we keep first occurrences. -/
def extractMedicalTerms (text : String) : List String :=
  let words := splitWs (jsToLower text)
  let medicalRoots : List String :=
    [ "cardio", "cardiac", "heart", "renal", "kidney", "hepatic", "liver"
    , "pulmonary", "lung", "diabetes", "diabetic", "asthma", "hypertension"
    , "seizure", "epilepsy", "stroke", "pregnancy", "pregnant", "elderly"
    , "geriatric", "failure", "disease", "syndrome", "disorder" ]
  let medicalTerms := words.filter fun word =>
    medicalRoots.contains word || word.length > 4
  let compoundTerms : List String :=
    [ "heart failure", "kidney disease", "liver disease", "diabetes mellitus"
    , "myocardial infarction", "renal failure", "respiratory failure" ]
  let text_lower := jsToLower text
  let compounds := compoundTerms.filterMap fun term =>
    if jsIncludes text_lower term then
      some ⟨term.data.map fun c => if c = ' ' then '_' else c⟩
    else none
  (medicalTerms ++ compounds).eraseDups

/-- `checkMedicalSemanticSimilarity` (specialty-breakdown.tsx), returning
`(confidence, reasoning)`. -/
def checkMedicalSemanticSimilarity (diagnosisLower conditionLower : String) (_icd10Code : String) :
    ℚ × String :=
  let diagnosisTerms := extractMedicalTerms diagnosisLower
  let conditionTerms := extractMedicalTerms conditionLower
  diagnosisTerms.foldl
    (fun acc diagnosisTerm =>
      match getMedicalSynonymDatabase.find? (fun g => g.key = diagnosisTerm) with
      | none => acc
      | some synonymGroup =>
        conditionTerms.foldl
          (fun acc' conditionTerm =>
            if synonymGroup.synonyms.contains conditionTerm then
              let confidence := synonymGroup.confidence * 0.85
              if confidence > acc'.1 then
                (confidence, "Medical synonym match: " ++ diagnosisTerm ++ " - " ++ conditionTerm)
              else acc'
            else acc')
          acc)
    (0, "")

/-- One entry of `getDrugMechanismContraindications()`. -/
structure MechEntry where
  category : String
  diagnoses : List String
  contraindications : List String
  severity : ℚ
deriving DecidableEq, Repr

/-- `getDrugMechanismContraindications` (specialty-breakdown.tsx). -/
def getDrugMechanismContraindications : List MechEntry :=
  [ { category := "ACE Inhibitors"
    , diagnoses := ["kidney", "renal", "hyperkalemia", "angioedema"]
    , contraindications := ["kidney disease", "renal impairment", "hyperkalemia", "angioedema"]
    , severity := 0.9 }
  , { category := "Beta Blockers"
    , diagnoses := ["asthma", "copd", "heart block", "bradycardia"]
    , contraindications := ["asthma", "bronchospasm", "heart block", "severe bradycardia"]
    , severity := 0.85 }
  , { category := "NSAIDs"
    , diagnoses := ["kidney", "heart failure", "peptic ulcer", "bleeding"]
    , contraindications := ["kidney disease", "heart failure", "peptic ulcer", "bleeding disorder"]
    , severity := 0.8 }
  , { category := "Anticoagulants"
    , diagnoses := ["bleeding", "surgery", "liver disease", "peptic ulcer"]
    , contraindications := ["active bleeding", "recent surgery", "liver disease", "peptic ulcer"]
    , severity := 0.9 }
  , { category := "Metformin"
    , diagnoses := ["kidney", "liver", "heart failure", "acidosis"]
    , contraindications := ["kidney disease", "liver disease", "heart failure", "metabolic acidosis"]
    , severity := 0.85 }
  , { category := "Statins"
    , diagnoses := ["liver disease", "myopathy", "rhabdomyolysis"]
    , contraindications := ["active liver disease", "myopathy", "rhabdomyolysis"]
    , severity := 0.8 } ]

/-- `checkDrugMechanismContraindications` (specialty-breakdown.tsx). -/
def checkDrugMechanismContraindications (diagnosisLower conditionLower : String) (_specialty : String) :
    ℚ × String :=
  getDrugMechanismContraindications.foldl
    (fun acc mechanism =>
      let diagnosisInCategory := mechanism.diagnoses.any fun diag =>
        jsIncludes diagnosisLower diag || jsIncludes diag diagnosisLower
      let contraindicationInCategory := mechanism.contraindications.any fun contraind =>
        jsIncludes conditionLower contraind || jsIncludes contraind conditionLower
      if diagnosisInCategory && contraindicationInCategory then
        let confidence := mechanism.severity * 0.8
        if confidence > acc.1 then
          (confidence, "Drug mechanism contraindication: " ++ mechanism.category)
        else acc
      else acc)
    (0, "")

structure MatchResult where
  isMatch : Bool
  confidence : ℚ
  reasoning : String
deriving DecidableEq, Repr

/-- `performAdvancedMedicalMatching` (specialty-breakdown.tsx): five
strategies, keeping the maximum confidence.  Strategy 2 overwrites the
reasoning whenever its condition holds (as the source does), strategies
3–5 only on strict improvement. -/
def performAdvancedMedicalMatching (diagnosis icd10Code contraindicationCondition
    contraindicationDescription specialty : String) : MatchResult :=
  let diagnosisLower := jsToLower diagnosis
  let icd10Lower := jsToLower icd10Code
  let conditionLower := jsToLower contraindicationCondition
  let descriptionLower := jsToLower contraindicationDescription
  -- Strategy 1: direct text matching
  let acc : ℚ × String :=
    if conditionLower = diagnosisLower || jsIncludes conditionLower diagnosisLower then
      (ratMax 0 0.95, "Direct condition match")
    else (0, "")
  -- Strategy 2: ICD-10 code matching
  let acc :=
    if jsIncludes descriptionLower icd10Lower || jsIncludes conditionLower icd10Lower then
      (ratMax acc.1 0.9, "ICD-10 code match")
    else acc
  -- Strategy 3: enhanced medical terminology matching
  let terminologyMatch := checkEnhancedMedicalTerminology diagnosisLower icd10Lower conditionLower descriptionLower specialty
  let acc := if terminologyMatch.1 > acc.1 then terminologyMatch else acc
  -- Strategy 4: semantic similarity using medical synonyms
  let semanticMatch := checkMedicalSemanticSimilarity diagnosisLower conditionLower icd10Code
  let acc := if semanticMatch.1 > acc.1 then semanticMatch else acc
  -- Strategy 5: drug class and mechanism-based matching
  let mechanismMatch := checkDrugMechanismContraindications diagnosisLower conditionLower specialty
  let acc := if mechanismMatch.1 > acc.1 then mechanismMatch else acc
  { isMatch := acc.1 > 0.5, confidence := acc.1, reasoning := acc.2 }

/-- A retained contraindication match (element of
`analyzeContraindicationsWithContext(...).matches`). -/
structure CMatch where
  condition : String
  severity : String
  confidence : ℚ
  reasoning : String
deriving DecidableEq, Repr

/-- The match record `analyzeContraindicationsWithContext` pushes for a
retained contraindication. -/
def toRetainedMatch (c : MedicationContraindication) (r : MatchResult) : CMatch :=
  { condition := c.condition, severity := c.severity
  , confidence := r.confidence, reasoning := r.reasoning }

/-- The retained-match list of `analyzeContraindicationsWithContext`
(specialty-breakdown.tsx).  The source also returns `contextualFactors`,
which no verified property depends on; the match list is the analysis
result used by the risk engine. -/
def analyzeContraindicationsWithContext (contraindications : List MedicationContraindication)
    (diagnosis icd10Code specialty : String) : List CMatch :=
  contraindications.filterMap fun contraindication =>
    let matchResult := performAdvancedMedicalMatching diagnosis icd10Code
      contraindication.condition contraindication.description specialty
    if matchResult.isMatch && matchResult.confidence > 0.5 then
      some (toRetainedMatch contraindication matchResult)
    else none

/-! ## Risk scoring engine (specialty-breakdown.tsx) -/

/-- Rounded-percentage text interpolated into a finding string; it stands in
for the JavaScript `(confidence * 100).toFixed(1)`.  It renders only digits
and the characters `/`, `-`, so — like the decimal rendering it replaces —
it can never introduce the keywords (`CRITICAL`, `Contraindicated`) that
`determineFinalRiskLevel` and the compatibility decision search for. -/
def pctText (q : ℚ) : String :=
  toString (q * 100)

/-- The `CRITICAL: ...` finding pushed for a high-confidence contraindicated
match. -/
def criticalFindingText (m : CMatch) : String :=
  "CRITICAL: " ++ m.condition ++ " - Contraindicated (Confidence: " ++ pctText m.confidence ++ "%)"

/-- The `WARNING: ...` finding pushed for a high-confidence warning match. -/
def warningFindingText (m : CMatch) : String :=
  "WARNING: " ++ m.condition ++ " - Major precaution required (Confidence: " ++ pctText m.confidence ++ "%)"

/-- The `CAUTION: ...` finding pushed for a precaution match. -/
def cautionFindingText (m : CMatch) : String :=
  "CAUTION: " ++ m.condition ++ " - Monitor closely (Confidence: " ++ pctText m.confidence ++ "%)"

/-- The per-match loop body of `analyzeContraindicationSeverityWithContext`:
weighted severity and the (possibly empty) critical finding it pushes. -/
def matchSeverityAndFinding (m : CMatch) : ℚ × List String :=
  if m.severity = "contraindicated" then
    (10 * m.confidence, if m.confidence > 0.8 then [criticalFindingText m] else [])
  else if m.severity = "warning" then
    (6 * m.confidence, if m.confidence > 0.7 then [warningFindingText m] else [])
  else if m.severity = "precaution" then
    (3 * m.confidence, if m.confidence > 0.6 then [cautionFindingText m] else [])
  else (2 * m.confidence, [])

/-- The fold of `analyzeContraindicationSeverityWithContext` over the
retained matches: `severityScore` is the running maximum of the weighted
severities (starting from 0) and the critical findings accumulate in order. -/
def severityAndFindingsOfMatches (ms : List CMatch) : ℚ × List String :=
  ms.foldl
    (fun acc m =>
      let sf := matchSeverityAndFinding m
      (ratMax acc.1 sf.1, acc.2 ++ sf.2))
    (0, [])

/-- `analyzeContraindicationSeverityWithContext` (specialty-breakdown.tsx):
runs the matcher and folds the severity/critical-findings loop. -/
def analyzeContraindicationSeverityWithContext (contraindications : List MedicationContraindication)
    (diagnosis icd10Code specialty : String) : ℚ × List String :=
  severityAndFindingsOfMatches (analyzeContraindicationsWithContext contraindications diagnosis icd10Code specialty)

/-- `assessIcd10CategoryRisk` (specialty-breakdown.tsx). -/
def assessIcd10CategoryRisk (icd10Code : String) : ℚ × List String :=
  let categoryRisks : List (Char × ℚ × String) :=
    [ ('E', 4, "Endocrine disorders require careful medication management")
    , ('I', 5, "Cardiovascular conditions increase medication risks")
    , ('N', 4, "Kidney/urogenital conditions affect drug clearance")
    , ('K', 3, "Gastrointestinal conditions may affect absorption")
    , ('F', 3, "Mental health conditions require consideration of drug interactions")
    , ('O', 6, "Pregnancy requires specialized medication safety protocols") ]
  match jsFirstCharUpper icd10Code with
  | none => (1, [])
  | some firstChar =>
    match categoryRisks.find? (fun e => e.1 = firstChar) with
    | some e => (e.2.1, [e.2.2])
    | none => (1, [])

/-- `identifyComorbidityRiskFactors` (specialty-breakdown.tsx). -/
def identifyComorbidityRiskFactors (diagnosis : String) (_icd10Code : String) : ℚ × List String :=
  let diagnosisLower := jsToLower diagnosis
  let comorbidityFactors : List (List String × ℚ × String) :=
    [ (["diabetes", "diabetic"], 2, "Diabetes increases medication monitoring requirements")
    , (["hypertension", "high blood pressure"], 1, "Hypertension may be affected by medication choice")
    , (["heart failure"], 3, "Heart failure significantly impacts medication selection")
    , (["chronic kidney disease", "renal failure"], 4, "Kidney disease requires dose adjustments")
    , (["liver disease", "cirrhosis"], 3, "Liver disease affects medication metabolism") ]
  comorbidityFactors.foldl
    (fun acc factor =>
      if factor.1.any (fun keyword => jsIncludes diagnosisLower keyword) then
        (acc.1 + factor.2.1, acc.2 ++ [factor.2.2])
      else acc)
    (0, [])

/-- `assessClinicalContext` (specialty-breakdown.tsx).  The `medication`
argument is unused by the source body and dropped here. -/
def assessClinicalContext (diagnosis icd10Code specialty : String) : ℚ × List String :=
  let specialtyRisk : ℚ :=
    if specialty = "Critical Care Medicine" then 8
    else if specialty = "Cardiology" then 7
    else if specialty = "Nephrology" then 7
    else if specialty = "Hepatology" then 6
    else if specialty = "Oncology" then 6
    else if specialty = "Emergency Medicine" then 5
    else 2
  let considerations : List String :=
    if specialtyRisk ≥ 6 then
      ["High-risk specialty (" ++ specialty ++ ") - Enhanced monitoring required"]
    else []
  let categoryRisk := assessIcd10CategoryRisk icd10Code
  let comorbidityRisk := identifyComorbidityRiskFactors diagnosis icd10Code
  (specialtyRisk + categoryRisk.1 + comorbidityRisk.1,
   considerations ++ categoryRisk.2 ++ comorbidityRisk.2)

/-- `isRelevantIcd10Category` (specialty-breakdown.tsx). -/
def isRelevantIcd10Category (icd10Code : String) (organSystem : String) : Bool :=
  let systemMappings : List (String × List Char) :=
    [ ("renal", ['N']), ("hepatic", ['K']), ("cardiac", ['I'])
    , ("respiratory", ['J']), ("neurological", ['G', 'F']) ]
  match jsFirstCharUpper icd10Code, systemMappings.find? (fun e => e.1 = organSystem) with
  | some firstChar, some e => e.2.contains firstChar
  | _, _ => false

/-- `evaluatePatientSafetyFactors` (specialty-breakdown.tsx).  The
`medication` argument is unused by the source body and dropped here. -/
def evaluatePatientSafetyFactors (diagnosis icd10Code : String) : ℚ × List String :=
  let diagnosisLower := jsToLower diagnosis
  let acc : ℚ × List String :=
    if jsIncludes diagnosisLower "elderly" || jsIncludes diagnosisLower "geriatric"
        || jsStartsWith icd10Code "Z" then
      (3, ["Geriatric dosing protocols and enhanced monitoring"])
    else (0, [])
  let organSystemSafety : List (String × List String × ℚ × String) :=
    [ ("renal", ["kidney", "renal"], 5, "Creatinine clearance and renal function monitoring")
    , ("hepatic", ["liver", "hepatic"], 5, "Liver function tests and hepatic monitoring")
    , ("cardiac", ["heart", "cardiac"], 4, "Cardiac function and rhythm monitoring")
    , ("respiratory", ["lung", "respiratory", "asthma"], 3, "Respiratory function assessment")
    , ("neurological", ["seizure", "stroke", "brain"], 4, "Neurological status monitoring") ]
  let acc := organSystemSafety.foldl
    (fun acc entry =>
      if entry.2.1.any (fun keyword => jsIncludes diagnosisLower keyword)
          || isRelevantIcd10Category icd10Code entry.1 then
        (acc.1 + entry.2.2.1, acc.2 ++ [entry.2.2.2])
      else acc)
    acc
  if jsIncludes diagnosisLower "pregnancy" || jsIncludes diagnosisLower "pregnant"
      || jsStartsWith icd10Code "O" then
    (acc.1 + 6, acc.2 ++ ["Pregnancy safety category review and fetal monitoring"])
  else acc

/-- The medication record consumed by the drug-class / interaction scoring
(the loosely typed `medication.activeIngredient` of the source; `none`
models both a missing medication object and a missing/empty ingredient,
which JavaScript treats alike via falsiness). -/
structure MedInfo where
  activeIngredient : Option String
deriving DecidableEq, Repr

/-- One entry of `riskProfileMap` in `assessDrugClassSpecificRisks`. -/
structure RiskProfile where
  drugs : List String
  className : String
  baseRisk : ℚ
  conditions : List (List String × ℚ × String)
deriving DecidableEq, Repr

/-- `riskProfileMap` (specialty-breakdown.tsx, `assessDrugClassSpecificRisks`). -/
def riskProfileMap : List RiskProfile :=
  [ { drugs := ["warfarin", "heparin", "rivaroxaban", "dabigatran"]
    , className := "Anticoagulants", baseRisk := 7
    , conditions :=
        [ (["bleeding", "surgery", "trauma"], 3, "High bleeding risk - consider alternatives")
        , (["liver"], 2, "Hepatic metabolism affects anticoagulation") ] }
  , { drugs := ["insulin", "metformin", "glimepiride", "glyburide"]
    , className := "Antidiabetic Agents", baseRisk := 5
    , conditions :=
        [ (["kidney", "renal"], 3, "Renal impairment affects drug clearance")
        , (["liver", "hepatic"], 2, "Hepatic dysfunction affects metabolism") ] }
  , { drugs := ["lisinopril", "losartan", "amlodipine", "metoprolol"]
    , className := "Cardiovascular Agents", baseRisk := 4
    , conditions :=
        [ (["heart failure", "cardiac"], 2, "Careful titration required in heart failure")
        , (["kidney"], 3, "Monitor renal function closely") ] }
  , { drugs := ["phenytoin", "carbamazepine", "valproic acid", "lamotrigine"]
    , className := "Antiepileptic Drugs", baseRisk := 6
    , conditions :=
        [ (["liver"], 3, "Hepatic enzyme induction/inhibition concerns")
        , (["pregnancy"], 4, "Teratogenic risk - specialized management required") ] } ]

/-- `assessDrugClassSpecificRisks` (specialty-breakdown.tsx).  The source
`break`s after the first matching profile, i.e. only the first profile whose
drug list matches contributes. -/
def assessDrugClassSpecificRisks (medication : Option MedInfo) (diagnosis : String)
    (_specialty : String) : ℚ × List String :=
  match medication.bind (·.activeIngredient) with
  | none => (1, ["Unknown drug class - exercise caution"])
  | some ing =>
    if ing = "" then (1, ["Unknown drug class - exercise caution"])
    else
      let activeIngredient := jsToLower ing
      let diagnosisLower := jsToLower diagnosis
      match riskProfileMap.find? (fun profile =>
          profile.drugs.any fun drug => jsIncludes activeIngredient drug) with
      | none => (0, [])
      | some profile =>
        profile.conditions.foldl
          (fun acc cond =>
            if cond.1.any (fun c => jsIncludes diagnosisLower c) then
              (acc.1 + cond.2.1, acc.2 ++ [cond.2.2])
            else acc)
          (profile.baseRisk, [profile.className ++ " therapy identified"])

/-- `calculateInteractionPotential` (specialty-breakdown.tsx). -/
def calculateInteractionPotential (medication : Option MedInfo) (diagnosis : String)
    (_icd10Code : String) : ℚ :=
  match medication with
  | none => 1
  | some med =>
    let activeIngredient := jsToLower (med.activeIngredient.getD "")
    let diagnosisLower := jsToLower diagnosis
    let highInteractionDrugs : List String :=
      [ "warfarin", "phenytoin", "carbamazepine", "rifampin", "ketoconazole"
      , "erythromycin", "cimetidine", "omeprazole" ]
    let base : ℚ :=
      if highInteractionDrugs.any (fun drug => jsIncludes activeIngredient drug) then 4 else 0
    let interactionRiskConditions : List (List String × ℚ) :=
      [ (["liver", "hepatic"], 3), (["kidney", "renal"], 2), (["elderly", "geriatric"], 2) ]
    interactionRiskConditions.foldl
      (fun score rc =>
        if rc.1.any (fun c => jsIncludes diagnosisLower c) then score + rc.2 else score)
      base

/-- The five risk sub-scores.  The source field `drugClass` is rendered as
`drugClassScore` here. -/
structure RiskComponents where
  contraindicationSeverity : ℚ
  clinicalContext : ℚ
  patientSafety : ℚ
  drugClassScore : ℚ
  interactionPotential : ℚ
deriving DecidableEq, Repr

/-- Specialty weight vector (source field `drugClass` rendered as
`drugClassW`). -/
structure SpecialtyWeights where
  contraindication : ℚ
  clinical : ℚ
  safety : ℚ
  drugClassW : ℚ
  interaction : ℚ
deriving DecidableEq, Repr

/-- The `specialtyWeights` table of `calculateComprehensiveRiskScore`. -/
def specialtyWeightsFor (specialty : String) : SpecialtyWeights :=
  if specialty = "Critical Care Medicine" then
    { contraindication := 1.2, clinical := 1.1, safety := 1.3, drugClassW := 1.1, interaction := 1.2 }
  else if specialty = "Cardiology" then
    { contraindication := 1.1, clinical := 1.2, safety := 1.1, drugClassW := 1.3, interaction := 1.1 }
  else if specialty = "Nephrology" then
    { contraindication := 1.0, clinical := 1.1, safety := 1.3, drugClassW := 1.2, interaction := 1.2 }
  else if specialty = "Hepatology" then
    { contraindication := 1.0, clinical := 1.1, safety := 1.2, drugClassW := 1.3, interaction := 1.3 }
  else
    { contraindication := 1.0, clinical := 1.0, safety := 1.0, drugClassW := 1.0, interaction := 1.0 }

/-- `calculateComprehensiveRiskScore` (specialty-breakdown.tsx): weighted
sum of the five sub-scores, capped at 10. -/
def calculateComprehensiveRiskScore (riskComponents : RiskComponents) (specialty : String) : ℚ :=
  let weights := specialtyWeightsFor specialty
  let weightedScore :=
    riskComponents.contraindicationSeverity * weights.contraindication * 0.35 +
    riskComponents.clinicalContext * weights.clinical * 0.20 +
    riskComponents.patientSafety * weights.safety * 0.25 +
    riskComponents.drugClassScore * weights.drugClassW * 0.15 +
    riskComponents.interactionPotential * weights.interaction * 0.05
  ratMin 10 weightedScore

inductive RiskLevel where
  | low
  | medium
  | high
deriving DecidableEq, Repr

/-- Rank of a risk level, for the monotonicity statement. -/
def riskRank : RiskLevel → ℕ
  | .low => 0
  | .medium => 1
  | .high => 2

/-- `determineFinalRiskLevel` (specialty-breakdown.tsx). -/
def determineFinalRiskLevel (comprehensiveRiskScore : ℚ) (criticalFindings : List String) :
    RiskLevel :=
  if criticalFindings.any (fun finding => jsIncludes finding "CRITICAL") then .high
  else if comprehensiveRiskScore ≥ 7.5 then .high
  else if comprehensiveRiskScore ≥ 4.5 then .medium
  else if comprehensiveRiskScore ≥ 2.5 then
    (if criticalFindings.length > 0 then .medium else .low)
  else .low

/-- `determineCompatibilityWithSophisticatedLogic` (specialty-breakdown.tsx). -/
def determineCompatibilityWithSophisticatedLogic (riskLevel : RiskLevel)
    (criticalFindings : List String) (specialty : String) (riskScore : ℚ) : Bool :=
  if criticalFindings.any (fun finding =>
      jsIncludes finding "CRITICAL" && jsIncludes finding "Contraindicated") then
    false
  else
    let criticalSpecialties : List String := ["Critical Care Medicine", "Emergency Medicine"]
    if riskLevel = .high && criticalSpecialties.contains specialty && riskScore > 8 then
      false
    else
      riskLevel ≠ .high || riskScore < 8

/-- Final verdict of the sophisticated assessment.  The source additionally
builds a `clinicalNotes` string (`generateClinicalDecisionSupportNotes`),
which is presentation text derived from the same inputs; no verified
property mentions it and it is omitted from the embedding. -/
structure AnalysisVerdict where
  isCompatible : Bool
  riskLevel : RiskLevel
deriving DecidableEq, Repr

/-- `performSophisticatedRiskAssessment` (specialty-breakdown.tsx): computes
the five sub-scores, the specialty-weighted composite score, the final risk
level and the compatibility boolean. -/
def performSophisticatedRiskAssessment (contraindications : List MedicationContraindication)
    (diagnosis icd10Code specialty : String) (medication : Option MedInfo)
    (_medicationName : String) : AnalysisVerdict :=
  let contraindicationAnalysis :=
    analyzeContraindicationSeverityWithContext contraindications diagnosis icd10Code specialty
  let criticalFindings := contraindicationAnalysis.2
  let clinicalContextAnalysis := assessClinicalContext diagnosis icd10Code specialty
  let patientSafetyAnalysis := evaluatePatientSafetyFactors diagnosis icd10Code
  let drugClassAnalysis := assessDrugClassSpecificRisks medication diagnosis specialty
  let interactionScore := calculateInteractionPotential medication diagnosis icd10Code
  let riskComponents : RiskComponents :=
    { contraindicationSeverity := contraindicationAnalysis.1
    , clinicalContext := clinicalContextAnalysis.1
    , patientSafety := patientSafetyAnalysis.1
    , drugClassScore := drugClassAnalysis.1
    , interactionPotential := interactionScore }
  let comprehensiveRiskScore := calculateComprehensiveRiskScore riskComponents specialty
  let finalRiskLevel := determineFinalRiskLevel comprehensiveRiskScore criticalFindings
  let isCompatible := determineCompatibilityWithSophisticatedLogic finalRiskLevel
    criticalFindings specialty comprehensiveRiskScore
  { isCompatible := isCompatible, riskLevel := finalRiskLevel }

/-! ## Fuzzy medication matching (specialty-breakdown.tsx) -/

/-- Levenshtein edit distance.  This is the standard recurrence that the
source's dynamic-programming `matrix[i][j]` fills row by row
(`levenshteinDistance` in specialty-breakdown.tsx): equal heads cost 0,
otherwise 1 + min of substitution / insertion / deletion. -/
def levList : List Char → List Char → ℕ
  | [], ys => ys.length
  | x :: xs, [] => (x :: xs).length
  | x :: xs, y :: ys =>
    if x = y then levList xs ys
    else 1 + min (levList xs ys) (min (levList (x :: xs) ys) (levList xs (y :: ys)))
termination_by xs ys => xs.length + ys.length

/-- `levenshteinDistance` (specialty-breakdown.tsx). -/
def levenshteinDistance (str1 str2 : String) : ℕ :=
  levList str1.data str2.data

/-- `calculateSimilarityScore` (specialty-breakdown.tsx): `0` when either
string is empty (JavaScript falsiness of `''`), else
`(longer.length - editDistance) / longer.length`. -/
def calculateSimilarityScore (str1 str2 : String) : ℚ :=
  if str1 = "" || str2 = "" then 0
  else
    let longer := if str1.length > str2.length then str1 else str2
    let shorter := if str1.length > str2.length then str2 else str1
    if longer.length = 0 then 1
    else
      let editDistance := levenshteinDistance longer shorter
      ((longer.length : ℚ) - editDistance) / longer.length

/-- JavaScript word character (`\w` is `[A-Za-z0-9_]`; Lean's
`Char.isAlphanum` is exactly ASCII letters and digits). -/
def jsIsWordChar (c : Char) : Bool :=
  c.isAlphanum || c = '_'

/-- A `\b` holds before the current position iff the preceding character is
absent (string start) or a non-word character (all our patterns continue
with a word character). -/
def boundaryBefore (prev : Option Char) : Bool :=
  match prev with
  | none => true
  | some c => !jsIsWordChar c

/-- A `\b` holds after a word character iff the input is exhausted or the
next character is a non-word character. -/
def boundaryAfterWord (rest : List Char) : Bool :=
  match rest.head? with
  | none => true
  | some c => !jsIsWordChar c

/-- Global regex replacement by the empty string: scan left to right; on a
match consume it (the matcher returns the number of consumed characters,
always ≥ 1 for our patterns) and resume after it — as JavaScript
`String.replace(/…/g, '')` does, with the lookbehind context (`prev`) taken
from the original string. -/
def scanReplaceGo (m : Option Char → List Char → Option ℕ) (prev : Option Char) :
    List Char → List Char
  | [] => []
  | c :: cs =>
    match m prev (c :: cs) with
    | some (k + 1) => scanReplaceGo m (((c :: cs).take (k + 1)).getLast?) (cs.drop k)
    | _ => c :: scanReplaceGo m (some c) cs
termination_by l => l.length
decreasing_by
  · simp only [List.length_drop, List.length_cons]
    omega
  · simp only [List.length_cons]
    omega

/-- Matcher for `/\s+(hcl|hydrochloride|sodium|potassium|mesylate|maleate|succinate|tartrate|citrate|sulfate|phosphate|acetate|chloride)\b/`:
one-or-more whitespace, then a salt/counter-ion word (alternatives tried in
source order), then a word boundary. -/
def matchSalt (_prev : Option Char) (input : List Char) : Option ℕ :=
  let ws := input.takeWhile Char.isWhitespace
  if ws.length = 0 then none
  else
    let rest := input.drop ws.length
    let saltWords : List String :=
      [ "hcl", "hydrochloride", "sodium", "potassium", "mesylate", "maleate", "succinate"
      , "tartrate", "citrate", "sulfate", "phosphate", "acetate", "chloride" ]
    saltWords.findSome? fun w =>
      if w.data.isPrefixOf rest && boundaryAfterWord (rest.drop w.data.length) then
        some (ws.length + w.data.length)
      else none

/-- Matcher for `/\b(extended|immediate|sustained|controlled|delayed)\s+release\b/`. -/
def matchRelease (prev : Option Char) (input : List Char) : Option ℕ :=
  if !boundaryBefore prev then none
  else
    let firstWords : List String := ["extended", "immediate", "sustained", "controlled", "delayed"]
    firstWords.findSome? fun w =>
      if w.data.isPrefixOf input then
        let afterW := input.drop w.data.length
        let ws := afterW.takeWhile Char.isWhitespace
        if ws.length = 0 then none
        else
          let afterWs := afterW.drop ws.length
          if "release".data.isPrefixOf afterWs
              && boundaryAfterWord (afterWs.drop "release".data.length) then
            some (w.data.length + ws.length + "release".data.length)
          else none
      else none

/-- Matcher for `/\b(tablet|capsule|injection|syrup|solution|suspension|cream|ointment)\b/`. -/
def matchDoseForm (prev : Option Char) (input : List Char) : Option ℕ :=
  if !boundaryBefore prev then none
  else
    let formWords : List String :=
      ["tablet", "capsule", "injection", "syrup", "solution", "suspension", "cream", "ointment"]
    formWords.findSome? fun w =>
      if w.data.isPrefixOf input && boundaryAfterWord (input.drop w.data.length) then
        some w.data.length
      else none

/-- Matcher for `/\b\d+\s*(mg|mcg|g|ml|units?)\b/`.  `units?` is the ordered
pair of alternatives `units`, `unit`; the digit run and the whitespace run
are greedy (no backtracking can help, since no unit begins with a digit or
whitespace). -/
def matchDosage (prev : Option Char) (input : List Char) : Option ℕ :=
  if !boundaryBefore prev then none
  else
    let digits := input.takeWhile Char.isDigit
    if digits.length = 0 then none
    else
      let afterDigits := input.drop digits.length
      let ws := afterDigits.takeWhile Char.isWhitespace
      let afterWs := afterDigits.drop ws.length
      let units : List String := ["mg", "mcg", "g", "ml", "units", "unit"]
      units.findSome? fun u =>
        if u.data.isPrefixOf afterWs && boundaryAfterWord (afterWs.drop u.data.length) then
          some (digits.length + ws.length + u.data.length)
        else none

/-- Collapse each whitespace run to a single space (`/\s+/g` → `' '`). -/
def collapseWs : List Char → List Char
  | [] => []
  | c :: cs =>
    if c.isWhitespace then ' ' :: collapseWs (cs.dropWhile Char.isWhitespace)
    else c :: collapseWs cs
termination_by l => l.length
decreasing_by
  · simp only [List.length_cons]
    have := (List.dropWhile_suffix (l := cs) Char.isWhitespace).sublist.length_le
    omega
  · simp only [List.length_cons]
    omega

/-- `normalizeMedicationName` (specialty-breakdown.tsx): trim + lowercase,
strip salt-form suffixes, release-form phrases, dosage-form words and
numeric dosages, remove parentheses, collapse whitespace, trim. -/
def normalizeMedicationName (name : String) : String :=
  let s0 := (jsToLower (jsTrim name)).data
  let s1 := scanReplaceGo matchSalt none s0
  let s2 := scanReplaceGo matchRelease none s1
  let s3 := scanReplaceGo matchDoseForm none s2
  let s4 := scanReplaceGo matchDosage none s3
  let s5 := s4.filter fun c => !(c = '(' || c = ')')
  let s6 := collapseWs s5
  jsTrim ⟨s6⟩

/-- A candidate medication returned by the reference search, as consumed by
`findBestMedicationMatch` (`brandName || ''` and `genericName || ''` are
modelled by plain strings, with `""` for a missing field). -/
structure MedCandidate where
  brandName : String
  genericName : String
  activeIngredients : List String
deriving DecidableEq, Repr

/-- The per-candidate score of `findBestMedicationMatch`: the maximum of the
similarity scores of the normalized search term against the normalized
brand name, generic name, and each active ingredient (`0` when there are no
ingredients). -/
def candidateMaxScore (normalizedSearch : String) (medication : MedCandidate) : ℚ :=
  let brandScore := calculateSimilarityScore normalizedSearch (normalizeMedicationName medication.brandName)
  let genericScore := calculateSimilarityScore normalizedSearch (normalizeMedicationName medication.genericName)
  let ingredientScore :=
    match medication.activeIngredients.map
        (fun ing => calculateSimilarityScore normalizedSearch (normalizeMedicationName ing)) with
    | [] => 0
    | s :: ss => ss.foldl ratMax s
  ratMax brandScore (ratMax genericScore ingredientScore)

/-- The loop body of `findBestMedicationMatch`: replace the current best on
a strictly greater candidate score. -/
def bestStep (normalizedSearch : String) (acc : MedCandidate × ℚ) (medication : MedCandidate) :
    MedCandidate × ℚ :=
  let maxScore := candidateMaxScore normalizedSearch medication
  if maxScore > acc.2 then (medication, maxScore) else acc

/-- `findBestMedicationMatch` (specialty-breakdown.tsx): `null` on an empty
candidate list, else the fold of `bestStep` over all candidates starting
from `(medications[0], 0)`. -/
def findBestMedicationMatch (searchTerm : String) (medications : List MedCandidate) :
    Option MedCandidate :=
  match medications with
  | [] => none
  | m0 :: _ =>
    let normalizedSearch := normalizeMedicationName searchTerm
    some (medications.foldl (bestStep normalizedSearch) (m0, (0 : ℚ))).1

/-! ## Circuit breaker (server/storage.ts, ErrorHandlingService) -/

inductive CBState where
  | closed
  | open'
  | halfOpen
deriving DecidableEq, Repr

/-- `CircuitBreakerState` (storage.ts). -/
structure CircuitBreakerState where
  state : CBState
  failures : ℕ
  lastFailureTime : ℤ
  successCount : ℕ
  threshold : ℕ
  timeout : ℤ
deriving DecidableEq, Repr

/-- `createCircuitBreaker` (storage.ts); the source defaults are
`threshold = 5`, `timeout = 60000`. -/
def createCircuitBreaker (threshold : ℕ) (timeout : ℤ) : CircuitBreakerState :=
  { state := .closed, failures := 0, lastFailureTime := 0, successCount := 0
  , threshold := threshold, timeout := timeout }

/-- How one `executeWithCircuitBreaker` call was served. -/
inductive CBServed where
  | shortCircuit
  | live
  | fallbackAfterFailure
deriving DecidableEq, Repr

/-- Whether the remote `apiCall` was invoked for this outcome. -/
def CBServed.remoteInvoked : CBServed → Bool
  | .shortCircuit => false
  | .live => true
  | .fallbackAfterFailure => true

/-- `executeWithCircuitBreaker` (storage.ts) as a state-transition function:
`now` is `Date.now()` and `callSucceeds` tells whether the remote `apiCall`
would resolve (it is only consulted when the call is actually made).
Returns the new breaker state and how the call was served. -/
def executeWithCircuitBreaker (cb : CircuitBreakerState) (now : ℤ) (callSucceeds : Bool) :
    CircuitBreakerState × CBServed :=
  if cb.state = .open' ∧ ¬(now - cb.lastFailureTime > cb.timeout) then
    -- circuit is open and the cooldown has not elapsed: fallback, no remote call
    (cb, .shortCircuit)
  else
    let cb1 := if cb.state = .open' then { cb with state := .halfOpen, successCount := 0 } else cb
    if callSucceeds then
      if cb1.state = .halfOpen then
        let sc := cb1.successCount + 1
        if sc ≥ 2 then
          ({ cb1 with state := .closed, failures := 0, successCount := sc }, .live)
        else
          ({ cb1 with successCount := sc }, .live)
      else
        -- gradual recovery: Math.max(0, failures - 1), which is ℕ subtraction
        ({ cb1 with failures := cb1.failures - 1 }, .live)
    else
      let cb2 := { cb1 with failures := cb1.failures + 1, lastFailureTime := now }
      if cb2.failures ≥ cb2.threshold then
        ({ cb2 with state := .open' }, .fallbackAfterFailure)
      else
        (cb2, .fallbackAfterFailure)

/-- Run a trace of calls `(now, callSucceeds)` through the breaker. -/
def cbRun (cb : CircuitBreakerState) (trace : List (ℤ × Bool)) : CircuitBreakerState :=
  trace.foldl (fun s step => (executeWithCircuitBreaker s step.1 step.2).1) cb

/-! ## Caches (medicationService.ts / icd10Service.ts) -/

/-- `CachedMedicationResult` / `CachedIcd10Result`: payload plus fetch and
expiry timestamps. -/
structure CacheEntry (α : Type) where
  data : α
  timestamp : ℤ
  expiresAt : ℤ
deriving DecidableEq, Repr

/-- JavaScript `Map.get` on an association list (first binding wins; our
`set` keeps at most one binding per key). -/
def cacheLookup {α : Type} (cache : List (String × CacheEntry α)) (key : String) :
    Option (CacheEntry α) :=
  (cache.find? fun p => p.1 = key).map (·.2)

/-- The shared `getFromCache` pattern of both services: miss on an absent
key; an entry with `now > expiresAt` is deleted and reported as a miss
(the deletion removes only an entry no later read would ever return, so the
read result is a function of the map contents); otherwise the stored data.
-/
def cacheRead {α : Type} (cache : List (String × CacheEntry α)) (key : String) (now : ℤ) :
    Option α :=
  match cacheLookup cache key with
  | none => none
  | some cached => if now > cached.expiresAt then none else some cached.data

/-- The shared `setCache` pattern: `Map.set` of
`⟨data, Date.now(), Date.now() + expirationMs⟩` under `key`. -/
def cacheWrite {α : Type} (cache : List (String × CacheEntry α)) (key : String) (data : α)
    (now expirationMs : ℤ) : List (String × CacheEntry α) :=
  (key, { data := data, timestamp := now, expiresAt := now + expirationMs }) ::
    cache.filter fun p => ¬(p.1 = key)

/-- `cleanupExpiredEntries`: drop every entry with `now > expiresAt`. -/
def cleanupExpiredEntries {α : Type} (cache : List (String × CacheEntry α)) (now : ℤ) :
    List (String × CacheEntry α) :=
  cache.filter fun p => ¬(now > p.2.expiresAt)

namespace MedicationService

/-- `cacheExpirationMs` = 12 hours (medicationService.ts). -/
def cacheExpirationMs : ℤ := 1000 * 60 * 60 * 12

/-- `MedicationService.getFromCache`. -/
def getFromCache {α : Type} (cache : List (String × CacheEntry α)) (key : String) (now : ℤ) :
    Option α :=
  cacheRead cache key now

/-- `MedicationService.setCache`: write, then clean expired entries when the
map has grown beyond 500 entries. -/
def setCache {α : Type} (cache : List (String × CacheEntry α)) (key : String) (data : α)
    (now : ℤ) : List (String × CacheEntry α) :=
  let cache' := cacheWrite cache key data now cacheExpirationMs
  if cache'.length > 500 then cleanupExpiredEntries cache' now else cache'

end MedicationService

namespace Icd10Service

/-- `cacheExpirationMs` = 24 hours (icd10Service.ts). -/
def cacheExpirationMs : ℤ := 1000 * 60 * 60 * 24

/-- `Icd10Service.getFromCache` (and the identical
`getValidationFromCache`). -/
def getFromCache {α : Type} (cache : List (String × CacheEntry α)) (key : String) (now : ℤ) :
    Option α :=
  cacheRead cache key now

/-- `Icd10Service.setCache`: write, then clean expired entries when the map
has grown beyond 1000 entries. -/
def setCache {α : Type} (cache : List (String × CacheEntry α)) (key : String) (data : α)
    (now : ℤ) : List (String × CacheEntry α) :=
  let cache' := cacheWrite cache key data now cacheExpirationMs
  if cache'.length > 1000 then cleanupExpiredEntries cache' now else cache'

/-- `Icd10Service.setValidationCache`: plain write (no cleanup), with the
same 24h expiry. -/
def setValidationCache {α : Type} (cache : List (String × CacheEntry α)) (key : String)
    (data : α) (now : ℤ) : List (String × CacheEntry α) :=
  cacheWrite cache key data now cacheExpirationMs

end Icd10Service

/-! ## Quota accounting and the medication client (medicationService.ts) -/

namespace MedicationService

/-- `RateLimitState` (medicationService.ts): the hourly-window counter and
its rollover time.  The service is constructed with
`{ requests: 0, resetTime: Date.now() + 3600000 }`. -/
structure RateLimitState where
  requests : ℕ
  resetTime : ℤ
deriving DecidableEq, Repr

/-- The configurable `apiLimits`. -/
structure ApiLimits where
  dailyLimit : ℕ
  hourlyLimit : ℕ
  minuteLimit : ℕ
deriving DecidableEq, Repr

/-- Limits without an API key (`configureApiLimitsFromEnvironment`). -/
def standardLimits : ApiLimits :=
  { dailyLimit := 1000, hourlyLimit := 240, minuteLimit := 240 }

/-- Limits with an API key (`configureApiLimitsFromEnvironment`). -/
def enhancedLimits : ApiLimits :=
  { dailyLimit := 120000, hourlyLimit := 5000, minuteLimit := 240 }

/-- Integer `Math.ceil(a / b)` for `b > 0`. -/
def ceilDiv (a b : ℤ) : ℤ :=
  (a + b - 1).fdiv b

/-- `checkRateLimit` (medicationService.ts): roll the window over when
`now ≥ resetTime`, then fail iff the window counter has reached
`hourlyLimit`.  Returns the (possibly rolled-over) counter state; the
per-minute and per-day limits are not consulted here. -/
def checkRateLimit (rl : RateLimitState) (limits : ApiLimits) (now : ℤ) :
    Except String RateLimitState :=
  let rl1 := if now ≥ rl.resetTime then { requests := 0, resetTime := now + 3600000 } else rl
  if rl1.requests ≥ limits.hourlyLimit then
    .error ("Rate limit exceeded. Please wait " ++ toString (ceilDiv (rl1.resetTime - now) 60000)
      ++ " minutes before making more requests.")
  else
    .ok rl1

/-- `incrementRateLimit`. -/
def incrementRateLimit (rl : RateLimitState) : RateLimitState :=
  { rl with requests := rl.requests + 1 }

/-- `ApiCallRecord` (medicationService.ts). -/
structure ApiCallRecord where
  timestamp : ℤ
  endpoint : String
  success : Bool
  errorType : Option String
deriving DecidableEq, Repr

/-- `maxHistoryRecords` (medicationService.ts). -/
def maxHistoryRecords : ℕ := 2000

/-- `recordApiCall`: append one record, and when the log exceeds
`maxHistoryRecords` keep only the newest `maxHistoryRecords / 2`
(`slice(-1000)`). -/
def recordApiCall (history : List ApiCallRecord) (record : ApiCallRecord) :
    List ApiCallRecord :=
  let history' := history ++ [record]
  if history'.length > maxHistoryRecords then
    history'.drop (history'.length - maxHistoryRecords / 2)
  else history'

/-- The usage-count part of `DetailedUsageStats`. -/
structure UsageCounts where
  dailyUsage : ℕ
  hourlyUsage : ℕ
  minuteUsage : ℕ
  dailyRemaining : ℕ
  hourlyRemaining : ℕ
  minuteRemaining : ℕ
  canMakeCall : Bool
deriving DecidableEq, Repr

/-- The quota portion of `getDetailedStats` (medicationService.ts): counts
of successful calls inside the day/hour/minute windows, the remaining
quotas (`Math.max(0, limit - usage)`, which is ℕ subtraction), and
`canMakeCall`.  `dayStart` is `new Date().setHours(0,0,0,0)`, passed in
explicitly since it depends on the local calendar. -/
def getDetailedStats (history : List ApiCallRecord) (limits : ApiLimits) (now dayStart : ℤ) :
    UsageCounts :=
  let successfulCalls := history.filter (·.success)
  let dailyUsage := (successfulCalls.filter fun r => r.timestamp ≥ dayStart).length
  let hourlyUsage := (successfulCalls.filter fun r => r.timestamp ≥ now - (60 * 60 * 1000)).length
  let minuteUsage := (successfulCalls.filter fun r => r.timestamp ≥ now - (60 * 1000)).length
  let dailyRemaining := limits.dailyLimit - dailyUsage
  let hourlyRemaining := limits.hourlyLimit - hourlyUsage
  let minuteRemaining := limits.minuteLimit - minuteUsage
  { dailyUsage := dailyUsage, hourlyUsage := hourlyUsage, minuteUsage := minuteUsage
  , dailyRemaining := dailyRemaining, hourlyRemaining := hourlyRemaining
  , minuteRemaining := minuteRemaining
  , canMakeCall := dailyRemaining > 0 && hourlyRemaining > 0 && minuteRemaining > 0 }

/-- What the remote `fetch` of a reference client would produce:
a timeout (`AbortError`), a non-timeout network/parse failure, a non-2xx
response, a 2xx response whose payload carries an FDA error object, or a
2xx response with a payload already parsed into result records
(`parseSearchResponse` is boundary JSON handling and is modelled by the
parsed list itself). -/
inductive RemoteOutcome (α : Type) where
  | timeout
  | netError
  | httpError (status : ℕ)
  | apiErrorPayload (msg : String)
  | success (payload : α)
deriving DecidableEq, Repr

/-- The mutable state of the medication client that `searchMedication`
touches. -/
structure MedSvcState where
  cache : List (String × CacheEntry (List MedCandidate))
  rateLimit : RateLimitState
  history : List ApiCallRecord
deriving DecidableEq, Repr

/-- `searchMedication` (medicationService.ts), with the remote call's
behaviour supplied as `outcome` (`.success` carries the parsed result
list).  Returns the result — or the thrown error's message — together with
the updated client state.  The quota path: a cache hit returns immediately;
otherwise `checkRateLimit` may throw; otherwise the fetch is issued, and
`incrementRateLimit` plus usage records fire exactly as in the source
(`incrementRateLimit` only when the fetch returned a response; a timeout or
network failure records a failure without incrementing the window counter).
There is no static fallback: every failure propagates as an error. -/
def searchMedication (st : MedSvcState) (limits : ApiLimits) (name : String) (maxResults : ℕ)
    (now : ℤ) (outcome : RemoteOutcome (List MedCandidate)) :
    Except String (List MedCandidate) × MedSvcState :=
  if jsTrim name = "" then
    (.error "Medication name cannot be empty", st)
  else
    let normalizedName := jsToLower (jsTrim name)
    let cacheKey := "search:" ++ normalizedName ++ ":" ++ toString maxResults
    match getFromCache st.cache cacheKey now with
    | some cachedResult => (.ok (cachedResult.take maxResults), st)
    | none =>
      match checkRateLimit st.rateLimit limits now with
      | .error e => (.error e, { st with rateLimit := if now ≥ st.rateLimit.resetTime then { requests := 0, resetTime := now + 3600000 } else st.rateLimit })
      | .ok rl1 =>
        match outcome with
        | .timeout =>
          let h1 := recordApiCall st.history
            { timestamp := now, endpoint := "search", success := false, errorType := some "TIMEOUT" }
          (.error "Medication search request timed out",
           { st with rateLimit := rl1, history := h1 })
        | .netError =>
          let h1 := recordApiCall st.history
            { timestamp := now, endpoint := "search", success := false, errorType := some "NETWORK_ERROR" }
          (.error "Failed to search medications: fetch failed",
           { st with rateLimit := rl1, history := h1 })
        | .httpError status =>
          let h1 := recordApiCall st.history
            { timestamp := now, endpoint := "search", success := false, errorType := none }
          let h2 := recordApiCall h1
            { timestamp := now, endpoint := "search", success := false
            , errorType := some ("HTTP_" ++ toString status) }
          (.error ("Failed to search medications: OpenFDA API request failed: " ++ toString status),
           { st with rateLimit := incrementRateLimit rl1, history := h2 })
        | .apiErrorPayload msg =>
          let h1 := recordApiCall st.history
            { timestamp := now, endpoint := "search", success := true, errorType := none }
          let h2 := recordApiCall h1
            { timestamp := now, endpoint := "search", success := false, errorType := some "FDA_ERROR" }
          (.error ("Failed to search medications: OpenFDA API error: " ++ msg),
           { st with rateLimit := incrementRateLimit rl1, history := h2 })
        | .success payload =>
          let h1 := recordApiCall st.history
            { timestamp := now, endpoint := "search", success := true, errorType := none }
          (.ok (payload.take maxResults),
           { cache := setCache st.cache cacheKey payload now
           , rateLimit := incrementRateLimit rl1, history := h1 })

/-- A fresh client state as constructed at service start-up at time `t0`
(`rateLimit = { requests: 0, resetTime: Date.now() + 3600000 }`). -/
def initialState (t0 : ℤ) : MedSvcState :=
  { cache := [], rateLimit := { requests := 0, resetTime := t0 + 3600000 }, history := [] }

end MedicationService

/-! ## Diagnosis client (icd10Service.ts) -/

namespace Icd10Service

/-- `Icd10SearchResult` (icd10Service.ts); `category` is set by
`parseSearchResponse` (possibly to an empty string for a malformed row,
which JavaScript treats as missing via falsiness). -/
structure Icd10SearchResult where
  code : String
  description : String
  category : String
deriving DecidableEq, Repr

/-- `Icd10ValidationResult` (icd10Service.ts). -/
structure Icd10ValidationResult where
  isValid : Bool
  description : Option String
  category : Option String
  specialty : Option String
deriving DecidableEq, Repr

/-- `determineCategory` (icd10Service.ts): ICD-10 chapter from the first
character. -/
def determineCategory (code : String) : String :=
  let categoryMap : List (Char × String) :=
    [ ('A', "Infectious and Parasitic Diseases"), ('B', "Infectious and Parasitic Diseases")
    , ('C', "Neoplasms"), ('D', "Neoplasms")
    , ('E', "Endocrine, Nutritional and Metabolic Diseases")
    , ('F', "Mental, Behavioral and Neurodevelopmental Disorders")
    , ('G', "Diseases of the Nervous System"), ('H', "Diseases of the Eye and Ear")
    , ('I', "Diseases of the Circulatory System"), ('J', "Diseases of the Respiratory System")
    , ('K', "Diseases of the Digestive System"), ('L', "Diseases of the Skin and Subcutaneous Tissue")
    , ('M', "Diseases of the Musculoskeletal System"), ('N', "Diseases of the Genitourinary System")
    , ('O', "Pregnancy, Childbirth and the Puerperium")
    , ('P', "Certain Conditions Originating in the Perinatal Period")
    , ('Q', "Congenital Malformations"), ('R', "Symptoms, Signs and Abnormal Clinical Findings")
    , ('S', "Injury, Poisoning and External Causes"), ('T', "Injury, Poisoning and External Causes")
    , ('V', "External Causes of Morbidity"), ('W', "External Causes of Morbidity")
    , ('X', "External Causes of Morbidity"), ('Y', "External Causes of Morbidity")
    , ('Z', "Factors Influencing Health Status") ]
  match jsFirstCharUpper code with
  | none => "Unknown"
  | some firstChar =>
    match categoryMap.find? (fun e => e.1 = firstChar) with
    | some e => e.2
    | none => "Unknown"

/-- JavaScript `<` on strings (lexicographic by code unit). -/
def jsStrLt : List Char → List Char → Bool
  | [], [] => false
  | [], _ :: _ => true
  | _ :: _, [] => false
  | a :: as, b :: bs => if a < b then true else if b < a then false else jsStrLt as bs

/-- JavaScript `a <= b` on strings. -/
def jsStrLe (a b : String) : Bool :=
  !jsStrLt b.data a.data

/-- `isCodeInRange` (icd10Service.ts): plain string comparison. -/
def isCodeInRange (code startCode endCode : String) : Bool :=
  jsStrLe startCode code && jsStrLe code endCode

/-- One entry of `getEnhancedSpecialtyMapping().specificCodes` (the source
field `codePrefix` is rendered here as `codeStart`). -/
structure SpecificCode where
  codeStart : String
  specialty : String
  codes : List String
deriving DecidableEq, Repr

/-- `getEnhancedSpecialtyMapping().specificCodes` (icd10Service.ts). -/
def specificCodes : List SpecificCode :=
  [ ⟨"I20", "Cardiology", []⟩, ⟨"I21", "Cardiology", []⟩, ⟨"I25", "Cardiology", []⟩
  , ⟨"I35", "Cardiothoracic Surgery", []⟩, ⟨"I42", "Cardiology", []⟩
  , ⟨"I48", "Electrophysiology", []⟩, ⟨"I50", "Cardiology", []⟩
  , ⟨"E10", "Endocrinology", []⟩, ⟨"E11", "Endocrinology", []⟩, ⟨"E05", "Endocrinology", []⟩
  , ⟨"E06", "Endocrinology", []⟩, ⟨"E27", "Endocrinology", []⟩
  , ⟨"N17", "Nephrology", []⟩, ⟨"N18", "Nephrology", []⟩, ⟨"N00", "Nephrology", []⟩
  , ⟨"N04", "Nephrology", []⟩
  , ⟨"N40", "Urology", []⟩, ⟨"N20", "Urology", []⟩, ⟨"N39", "Urology", []⟩
  , ⟨"J44", "Pulmonology", []⟩, ⟨"J45", "Pulmonology", []⟩, ⟨"J18", "Pulmonology", []⟩
  , ⟨"J84", "Pulmonology", []⟩
  , ⟨"K25", "Gastroenterology", []⟩, ⟨"K50", "Gastroenterology", []⟩
  , ⟨"K51", "Gastroenterology", []⟩, ⟨"K70", "Hepatology", []⟩, ⟨"K72", "Hepatology", []⟩
  , ⟨"K76", "Hepatology", []⟩
  , ⟨"G40", "Epileptology", []⟩, ⟨"G35", "Multiple Sclerosis", []⟩
  , ⟨"G20", "Movement Disorders", []⟩, ⟨"G93", "Neurology", []⟩
  , ⟨"C78", "Medical Oncology", []⟩, ⟨"C80", "Medical Oncology", []⟩
  , ⟨"D50", "Hematology", []⟩, ⟨"D64", "Hematology", []⟩, ⟨"D65", "Hematology", []⟩
  , ⟨"D68", "Hematology", []⟩, ⟨"D69", "Hematology", []⟩
  , ⟨"M05", "Rheumatology", []⟩, ⟨"M32", "Rheumatology", []⟩, ⟨"M79", "Rheumatology", []⟩
  , ⟨"M84", "Orthopedic Surgery", []⟩, ⟨"S72", "Orthopedic Surgery", []⟩
  , ⟨"H60", "Otolaryngology", []⟩, ⟨"H65", "Otolaryngology", []⟩, ⟨"H66", "Otolaryngology", []⟩
  , ⟨"J30", "Otolaryngology", []⟩
  , ⟨"M54", "Pain Management", []⟩, ⟨"G89", "Pain Management", []⟩
  , ⟨"R57", "Critical Care Medicine", []⟩, ⟨"R50", "Emergency Medicine", []⟩
  , ⟨"T78", "Allergy and Immunology", []⟩
  , ⟨"F20", "Psychiatry", []⟩, ⟨"F31", "Psychiatry", []⟩, ⟨"F32", "Psychiatry", []⟩
  , ⟨"F41", "Psychiatry", []⟩, ⟨"F90", "Child Psychiatry", []⟩ ]

/-- `getEnhancedSpecialtyMapping().codeRanges` (icd10Service.ts). -/
def codeRanges : List (String × String × String) :=
  [ ("H00", "H59", "Ophthalmology")
  , ("H60", "H95", "Otolaryngology")
  , ("O00", "O9A", "Obstetrics and Gynecology")
  , ("P00", "P96", "Neonatology")
  , ("Q00", "Q99", "Medical Genetics")
  , ("F90", "F98", "Child Psychiatry") ]

/-- The basic first-character specialty map of `determineSpecialty`. -/
def basicSpecialtyMap : List (Char × String) :=
  [ ('A', "Infectious Disease"), ('B', "Infectious Disease"), ('C', "Oncology")
  , ('D', "Hematology"), ('E', "Endocrinology"), ('F', "Psychiatry"), ('G', "Neurology")
  , ('H', "Ophthalmology"), ('I', "Cardiology"), ('J', "Pulmonology")
  , ('K', "Gastroenterology"), ('L', "Dermatology"), ('M', "Rheumatology")
  , ('N', "Nephrology"), ('O', "Obstetrics and Gynecology"), ('P', "Neonatology")
  , ('Q', "Medical Genetics"), ('R', "Internal Medicine"), ('S', "Trauma Surgery")
  , ('T', "Emergency Medicine"), ('V', "Emergency Medicine"), ('W', "Emergency Medicine")
  , ('X', "Emergency Medicine"), ('Y', "Emergency Medicine"), ('Z', "Family Medicine") ]

/-- `determineSpecialty` (icd10Service.ts): specific-code prefixes first,
then code ranges, then the basic first-character map, defaulting to
Internal Medicine. -/
def determineSpecialty (code : String) : String :=
  if code = "" then "Unknown"
  else
    let upperCode := jsToUpper code
    match specificCodes.find? (fun mapping =>
        jsStartsWith upperCode mapping.codeStart || mapping.codes.contains upperCode) with
    | some mapping => mapping.specialty
    | none =>
      match codeRanges.find? (fun r => isCodeInRange upperCode r.1 r.2.1) with
      | some r => r.2.2
      | none =>
        match jsFirstCharUpper upperCode with
        | none => "Internal Medicine"
        | some firstChar =>
          match basicSpecialtyMap.find? (fun e => e.1 = firstChar) with
          | some e => e.2
          | none => "Internal Medicine"

/-- `getFallbackSearchResults` (icd10Service.ts): the embedded static table,
filtered by the search term against description, code, and category. -/
def getFallbackSearchResults (term : String) (maxResults : ℕ) : List Icd10SearchResult :=
  let fallbackData : List Icd10SearchResult :=
    [ ⟨"E11.9", "Type 2 diabetes mellitus without complications", "Endocrine, Nutritional and Metabolic Diseases"⟩
    , ⟨"E11.65", "Type 2 diabetes mellitus with hyperglycemia", "Endocrine, Nutritional and Metabolic Diseases"⟩
    , ⟨"I21.9", "Acute myocardial infarction, unspecified", "Diseases of the Circulatory System"⟩
    , ⟨"J45.9", "Asthma, unspecified", "Diseases of the Respiratory System"⟩
    , ⟨"N18.6", "End stage renal disease", "Diseases of the Genitourinary System"⟩
    , ⟨"K25.9", "Gastric ulcer, unspecified", "Diseases of the Digestive System"⟩
    , ⟨"F31.2", "Bipolar disorder, current episode manic", "Mental, Behavioral and Neurodevelopmental Disorders"⟩
    , ⟨"G40.9", "Epilepsy, unspecified", "Diseases of the Nervous System"⟩
    , ⟨"K50.90", "Crohn's disease, unspecified, without complications", "Diseases of the Digestive System"⟩ ]
  let termLower := jsToLower term
  (fallbackData.filter fun item =>
    jsIncludes (jsToLower item.description) termLower ||
    jsIncludes (jsToLower item.code) termLower ||
    jsIncludes (jsToLower item.category) termLower).take maxResults

/-- The known-codes table of `getFallbackValidationResult`. -/
def knownCodes : List (String × String × String) :=
  [ ("E11.9", "Type 2 diabetes mellitus without complications", "Endocrine, Nutritional and Metabolic Diseases")
  , ("E11.65", "Type 2 diabetes mellitus with hyperglycemia", "Endocrine, Nutritional and Metabolic Diseases")
  , ("I21.9", "Acute myocardial infarction, unspecified", "Diseases of the Circulatory System")
  , ("J45.9", "Asthma, unspecified", "Diseases of the Respiratory System")
  , ("N18.6", "End stage renal disease", "Diseases of the Genitourinary System")
  , ("K25.9", "Gastric ulcer, unspecified", "Diseases of the Digestive System")
  , ("F31.2", "Bipolar disorder, current episode manic", "Mental, Behavioral and Neurodevelopmental Disorders")
  , ("G40.9", "Epilepsy, unspecified", "Diseases of the Nervous System")
  , ("K50.90", "Crohn's disease, unspecified, without complications", "Diseases of the Digestive System") ]

/-- The lexical test `/^[A-Z]\d{2}(\.\d+)?$/`: one uppercase letter, two
digits, optionally a dot followed by at least one digit. -/
def isIcd10Format (code : String) : Bool :=
  match code.data with
  | c :: d1 :: d2 :: rest =>
    ('A' ≤ c && c ≤ 'Z') && d1.isDigit && d2.isDigit &&
      (match rest with
       | [] => true
       | dot :: ds => dot = '.' && !ds.isEmpty && ds.all Char.isDigit)
  | _ => false

/-- `getFallbackValidationResult` (icd10Service.ts): known codes get their
table metadata; otherwise a format-valid code is accepted with a generic
description and locally derived category and specialty; otherwise invalid. -/
def getFallbackValidationResult (code : String) : Icd10ValidationResult :=
  match knownCodes.find? (fun e => e.1 = code) with
  | some known =>
    { isValid := true, description := some known.2.1, category := some known.2.2
    , specialty := some (determineSpecialty code) }
  | none =>
    if isIcd10Format code then
      { isValid := true, description := some "ICD-10 code (fallback validation)"
      , category := some (determineCategory code), specialty := some (determineSpecialty code) }
    else
      { isValid := false, description := none, category := none, specialty := none }

/-- `searchIcd10Code` (icd10Service.ts), with the remote behaviour supplied
as `outcome`.  An empty term throws; a cache hit returns immediately; a
non-2xx response or a non-timeout error is served from the static fallback
table and the fallback is cached; a timeout (`AbortError`) is re-thrown;
a 2xx payload is parsed, cached in full and truncated to `maxResults`.
(The `apiErrorPayload` outcome cannot occur here: this endpoint's payload
carries no error object, a malformed payload is the `netError` case.) -/
def searchIcd10Code (cache : List (String × CacheEntry (List Icd10SearchResult)))
    (term : String) (maxResults : ℕ) (now : ℤ)
    (outcome : MedicationService.RemoteOutcome (List Icd10SearchResult)) :
    Except String (List Icd10SearchResult) × List (String × CacheEntry (List Icd10SearchResult)) :=
  if jsTrim term = "" then
    (.error "Search term cannot be empty", cache)
  else
    let normalizedTerm := jsToLower (jsTrim term)
    let cacheKey := "search:" ++ normalizedTerm ++ ":" ++ toString maxResults
    match getFromCache cache cacheKey now with
    | some cachedResult => (.ok (cachedResult.take maxResults), cache)
    | none =>
      match outcome with
      | .httpError _ =>
        let fallbackResults := getFallbackSearchResults normalizedTerm maxResults
        (.ok fallbackResults, setCache cache cacheKey fallbackResults now)
      | .timeout =>
        (.error "ICD-10 search request timed out", cache)
      | .netError =>
        let fallbackResults := getFallbackSearchResults normalizedTerm maxResults
        (.ok fallbackResults, setCache cache cacheKey fallbackResults now)
      | .apiErrorPayload _ =>
        let fallbackResults := getFallbackSearchResults normalizedTerm maxResults
        (.ok fallbackResults, setCache cache cacheKey fallbackResults now)
      | .success payload =>
        (.ok (payload.take maxResults), setCache cache cacheKey payload now)

/-- JavaScript `exactMatch.category || determineCategory(code)`:
an empty category string is falsy. -/
def categoryOrDerived (category code : String) : String :=
  if category = "" then determineCategory code else category

/-- `validateIcd10Code` (icd10Service.ts), with the remote behaviour
supplied as `outcome`.  An empty code is reported invalid without a remote
call; a cache hit returns immediately; a non-2xx response or a non-timeout
error is answered by `getFallbackValidationResult` (cached); a timeout is
re-thrown; a 2xx payload is searched for an exact code match — found gives
a valid result with remote metadata, not found gives `isValid = false`
(both cached). -/
def validateIcd10Code (vcache : List (String × CacheEntry Icd10ValidationResult))
    (code : String) (now : ℤ)
    (outcome : MedicationService.RemoteOutcome (List Icd10SearchResult)) :
    Except String Icd10ValidationResult × List (String × CacheEntry Icd10ValidationResult) :=
  if jsTrim code = "" then
    (.ok { isValid := false, description := none, category := none, specialty := none }, vcache)
  else
    let normalizedCode := jsToUpper (jsTrim code)
    let cacheKey := "validate:" ++ normalizedCode
    match getFromCache vcache cacheKey now with
    | some cachedResult => (.ok cachedResult, vcache)
    | none =>
      match outcome with
      | .httpError _ =>
        let fallbackResult := getFallbackValidationResult normalizedCode
        (.ok fallbackResult, setValidationCache vcache cacheKey fallbackResult now)
      | .timeout =>
        (.error "ICD-10 validation request timed out", vcache)
      | .netError =>
        let fallbackResult := getFallbackValidationResult normalizedCode
        (.ok fallbackResult, setValidationCache vcache cacheKey fallbackResult now)
      | .apiErrorPayload _ =>
        let fallbackResult := getFallbackValidationResult normalizedCode
        (.ok fallbackResult, setValidationCache vcache cacheKey fallbackResult now)
      | .success payload =>
        match payload.find? (fun result => result.code = normalizedCode) with
        | some exactMatch =>
          let validationResult : Icd10ValidationResult :=
            { isValid := true, description := some exactMatch.description
            , category := some (categoryOrDerived exactMatch.category normalizedCode)
            , specialty := some (determineSpecialty normalizedCode) }
          (.ok validationResult, setValidationCache vcache cacheKey validationResult now)
        | none =>
          let result : Icd10ValidationResult :=
            { isValid := false, description := none, category := none, specialty := none }
          (.ok result, setValidationCache vcache cacheKey result now)

end Icd10Service

namespace MedicationService

/-- Drive `n` `searchMedication` calls with pairwise distinct search terms
(`m0`, `m1`, …) against a fresh client, all at `now = 0` (hence within one
minute) and all remote calls succeeding; `none` as soon as any call fails.
-/
def runSearchCalls (limits : ApiLimits) (n : ℕ) : Option MedSvcState :=
  (List.range n).foldl
    (fun acc i =>
      match acc with
      | none => none
      | some st =>
        match searchMedication st limits ("m" ++ toString i) 10 0
            (.success [{ brandName := "B", genericName := "G", activeIngredients := [] }]) with
        | (.ok _, st') => some st'
        | (.error _, _) => none)
    (some (initialState 0))

end MedicationService

/-! ## Specification-side definitions
These render claim text (not source code) for refinement comparisons; each
is compared against the embedding of the source. -/

/-- The compatibility rule as claim C4 words it: incompatible exactly when a
critical contraindicated finding exists, or when the risk level is high in a
critical specialty with composite score > 8; compatible otherwise. -/
def specCompatibilityRuleC4 (riskLevel : RiskLevel) (criticalFindings : List String)
    (specialty : String) (riskScore : ℚ) : Bool :=
  !((criticalFindings.any fun finding =>
      jsIncludes finding "CRITICAL" && jsIncludes finding "Contraindicated")
    || (riskLevel = RiskLevel.high
        && ["Critical Care Medicine", "Emergency Medicine"].contains specialty
        && riskScore > 8))

/-- The number of consecutive failures at the end of a call trace (`false` =
failure), for comparing the source's failure counter with the
"consecutive-failure count" wording of claim C5. -/
def trailingFailures (trace : List (ℤ × Bool)) : ℕ :=
  (trace.reverse.takeWhile fun step => !step.2).length

/-- The reachability invariant of the circuit breaker: in `closed` the
failure counter is below the threshold (it opens the moment it reaches it),
and outside `closed` it is at least the threshold (so any half-open failure
immediately re-opens). -/
def CBInv (cb : CircuitBreakerState) : Prop :=
  0 < cb.threshold ∧
  (cb.state = .closed → cb.failures < cb.threshold) ∧
  (cb.state ≠ .closed → cb.threshold ≤ cb.failures)

/-! ## Verified properties -/

section Claims

set_option maxRecDepth 100000

set_option maxHeartbeats 1000000

attribute [local semireducible] Rat.mul Rat.add Rat.sub Rat.inv Rat.ofScientific

theorem ratMax_eq_max (a b : ℚ) : ratMax a b = max a b := by
  unfold ratMax
  rcases lt_or_ge a b with h | h
  · rw [if_pos h, max_eq_right h.le]
  · rw [if_neg (not_lt.mpr h), max_eq_left h]

theorem ratMin_eq_min (a b : ℚ) : ratMin a b = min a b := by
  unfold ratMin
  rcases lt_or_ge b a with h | h
  · rw [if_pos h, min_eq_right h.le]
  · rw [if_neg (not_lt.mpr h), min_eq_left h]

theorem jsIncludes_iff {s sub : String} : jsIncludes s sub = true ↔ sub.data <:+: s.data := by
  simp [jsIncludes]

theorem jsIncludes_of_parts (s sub : String) (pre suf : List Char)
    (h : s.data = pre ++ sub.data ++ suf) : jsIncludes s sub = true :=
  jsIncludes_iff.mpr ⟨pre, suf, h.symm⟩

theorem criticalFindingText_includes_CRITICAL (m : CMatch) :
    jsIncludes (criticalFindingText m) "CRITICAL" = true := by
  apply jsIncludes_of_parts _ _ []
    (": ".data ++ m.condition.data ++ " - Contraindicated (Confidence: ".data
      ++ (pctText m.confidence).data ++ "%)".data)
  simp only [criticalFindingText, String.data_append, List.nil_append, List.append_assoc]
  rfl

theorem criticalFindingText_includes_Contraindicated (m : CMatch) :
    jsIncludes (criticalFindingText m) "Contraindicated" = true := by
  apply jsIncludes_of_parts _ _ ("CRITICAL: ".data ++ m.condition.data ++ " - ".data)
    (" (Confidence: ".data ++ (pctText m.confidence).data ++ "%)".data)
  simp only [criticalFindingText, String.data_append, List.append_assoc]
  rfl

/-- C4 (counterexample): with risk level `high`, no critical findings,
specialty `Cardiology` (not in this function's critical-specialty list) and
composite score 9, the claim's rule says compatible, but
`determineCompatibilityWithSophisticatedLogic` returns incompatible —
its final line `riskLevel !== 'high' || riskScore < 8` rejects every
high-risk verdict with score ≥ 8 regardless of specialty. -/
theorem C4_counterexample :
    determineCompatibilityWithSophisticatedLogic .high [] "Cardiology" 9 = false ∧
    specCompatibilityRuleC4 .high [] "Cardiology" 9 = true := by
  constructor <;> decide

/-- C4 (amended): the compatibility boolean is false exactly when a critical
'contraindicated' finding exists, or when the risk level is 'high' and the
composite score is at least 8 — regardless of specialty (the
critical-specialty / score > 8 branch of the source is subsumed by its
final `riskLevel !== 'high' || riskScore < 8` line); it is true in every
other case. -/
theorem C4_amended (riskLevel : RiskLevel) (criticalFindings : List String)
    (specialty : String) (riskScore : ℚ) :
    determineCompatibilityWithSophisticatedLogic riskLevel criticalFindings specialty riskScore
      = false ↔
    ((criticalFindings.any fun finding =>
        jsIncludes finding "CRITICAL" && jsIncludes finding "Contraindicated") = true
      ∨ (riskLevel = .high ∧ 8 ≤ riskScore)) := by
  cases h1 : (criticalFindings.any fun finding =>
      jsIncludes finding "CRITICAL" && jsIncludes finding "Contraindicated") with
  | true => simp [determineCompatibilityWithSophisticatedLogic, h1]
  | false =>
    cases riskLevel with
    | low => simp [determineCompatibilityWithSophisticatedLogic, h1]
    | medium => simp [determineCompatibilityWithSophisticatedLogic, h1]
    | high =>
      by_cases h8 : riskScore < 8
      · have h8' : ¬riskScore > 8 := by linarith
        simp [determineCompatibilityWithSophisticatedLogic, h1, h8, h8', not_le.mpr h8]
      · have h8' : (8 : ℚ) ≤ riskScore := not_lt.mp h8
        by_cases hsp : ["Critical Care Medicine", "Emergency Medicine"].contains specialty = true
        · by_cases hgt : riskScore > 8
          · simp [determineCompatibilityWithSophisticatedLogic, h1, hsp, hgt, h8, h8']
          · simp [determineCompatibilityWithSophisticatedLogic, h1, hsp, hgt, h8, h8']
        · simp [determineCompatibilityWithSophisticatedLogic, h1, hsp, h8, h8']

theorem severityAndFindings_snd (ms : List CMatch) :
    ∀ acc : ℚ × List String,
      (ms.foldl (fun acc m =>
        let sf := matchSeverityAndFinding m
        (ratMax acc.1 sf.1, acc.2 ++ sf.2)) acc).2
        = acc.2 ++ ms.flatMap fun m => (matchSeverityAndFinding m).2 := by
  induction ms with
  | nil => intro acc; simp
  | cons m rest ih =>
    intro acc
    simp only [List.foldl_cons, List.flatMap_cons]
    rw [ih]
    simp [List.append_assoc]

theorem criticalFinding_mem_of_match {ms : List CMatch} {m : CMatch} (hm : m ∈ ms)
    (hsev : m.severity = "contraindicated") (hconf : m.confidence > 0.8) :
    criticalFindingText m ∈ (severityAndFindingsOfMatches ms).2 := by
  unfold severityAndFindingsOfMatches
  rw [severityAndFindings_snd]
  apply List.mem_append_right
  apply List.mem_flatMap.mpr
  refine ⟨m, hm, ?_⟩
  simp [matchSeverityAndFinding, hsev, hconf]

theorem hasCritical_of_mem {F : List String} {f : String} (hf : f ∈ F)
    (h : jsIncludes f "CRITICAL" = true) :
    (F.any fun finding => jsIncludes finding "CRITICAL") = true :=
  List.any_eq_true.mpr ⟨f, hf, h⟩

/-- C3: `determineFinalRiskLevel` maps the composite score to a risk level
by the thresholds 7.5 / 4.5 / 2.5 (the 2.5-band yielding medium exactly
when the critical-findings list is non-empty), except that any finding
containing `CRITICAL` — pushed by `analyzeContraindicationSeverityWithContext`
exactly for a retained contraindicated match with confidence > 0.8 —
forces `high`; and for fixed findings the risk level is monotone in the
score. -/
theorem determineFinalRiskLevel_spec (s : ℚ) (F : List String)
    (hs0 : 0 ≤ s) (hs10 : s ≤ 10) :
    (∀ ms : List CMatch,
       (∃ m ∈ ms, m.severity = "contraindicated" ∧ m.confidence > 0.8) →
       determineFinalRiskLevel s (severityAndFindingsOfMatches ms).2 = .high) ∧
    ((F.any fun finding => jsIncludes finding "CRITICAL") = false →
       determineFinalRiskLevel s F =
         if s ≥ 7.5 then .high
         else if s ≥ 4.5 then .medium
         else if s ≥ 2.5 then (if F = [] then .low else .medium)
         else .low) ∧
    (∀ s' : ℚ, s ≤ s' →
       riskRank (determineFinalRiskLevel s F) ≤ riskRank (determineFinalRiskLevel s' F)) := by
  refine ⟨?_, ?_, ?_⟩
  · rintro ms ⟨m, hm, hsev, hconf⟩
    have hmem := criticalFinding_mem_of_match hm hsev hconf
    have hany := hasCritical_of_mem hmem (criticalFindingText_includes_CRITICAL m)
    simp [determineFinalRiskLevel, hany]
  · intro h
    simp only [determineFinalRiskLevel, h, Bool.false_eq_true, if_false]
    split_ifs with h1 h2 h3 h4 h5 <;>
      simp_all [List.length_pos]
  · intro s' hss'
    cases hc : (F.any fun finding => jsIncludes finding "CRITICAL") with
    | true => simp [determineFinalRiskLevel, hc]
    | false =>
      simp only [determineFinalRiskLevel, hc, Bool.false_eq_true, if_false]
      split_ifs <;> simp [riskRank] <;> linarith

/-- Witness for C3 at score 3 and one keyword-free finding. -/
theorem determineFinalRiskLevel_spec_witness :
    (0 : ℚ) ≤ 3 ∧ (3 : ℚ) ≤ 10 ∧
    ((∀ ms : List CMatch,
        (∃ m ∈ ms, m.severity = "contraindicated" ∧ m.confidence > 0.8) →
        determineFinalRiskLevel 3 (severityAndFindingsOfMatches ms).2 = .high) ∧
     ((["no keyword"].any fun finding => jsIncludes finding "CRITICAL") = false →
        determineFinalRiskLevel 3 ["no keyword"] =
          if (3 : ℚ) ≥ 7.5 then .high
          else if (3 : ℚ) ≥ 4.5 then .medium
          else if (3 : ℚ) ≥ 2.5 then (if ["no keyword"] = ([] : List String) then .low else .medium)
          else .low) ∧
     (∀ s' : ℚ, 3 ≤ s' →
        riskRank (determineFinalRiskLevel 3 ["no keyword"]) ≤
          riskRank (determineFinalRiskLevel s' ["no keyword"]))) :=
  ⟨by decide, by decide, determineFinalRiskLevel_spec 3 ["no keyword"] (by decide) (by decide)⟩

theorem foldl_preserve {α β : Type _} (P : β → Prop) (f : β → α → β) :
    ∀ (l : List α) (init : β), P init → (∀ b a, a ∈ l → P b → P (f b a)) →
      P (l.foldl f init) := by
  intro l
  induction l with
  | nil => intro init h _; simpa using h
  | cons x xs ih =>
    intro init h hstep
    simp only [List.foldl_cons]
    exact ih _ (hstep _ _ (List.mem_cons_self _ _) h)
      fun b a ha hb => hstep b a (List.mem_cons_of_mem _ ha) hb

theorem ratMax_bounds {a b : ℚ} (ha : 0 ≤ a ∧ a ≤ 1) (hb : 0 ≤ b ∧ b ≤ 1) :
    0 ≤ ratMax a b ∧ ratMax a b ≤ 1 := by
  unfold ratMax
  split_ifs <;> exact ⟨by linarith [ha.1, hb.1], by linarith [ha.2, hb.2]⟩

theorem termTable_severity_bounds :
    ∀ cat ∈ getComprehensiveMedicalTerminologyMappings, ∀ c ∈ cat.conditions,
      0 ≤ c.severity ∧ c.severity ≤ 0.95 := by decide

theorem calculateMatchConfidence_bounds (d : String) (e : CondEntry) (cat : String)
    (h0 : 0 ≤ e.severity) (h1 : e.severity ≤ 0.95) :
    0 ≤ calculateMatchConfidence d e cat ∧ calculateMatchConfidence d e cat ≤ 0.95 := by
  unfold calculateMatchConfidence ratMin
  dsimp only
  split_ifs <;> constructor <;> linarith

theorem pickHighestSeverity_mem (first : CondEntry) (rest : List CondEntry) :
    pickHighestSeverity first rest ∈ first :: rest := by
  unfold pickHighestSeverity
  induction rest generalizing first with
  | nil => simp
  | cons c cs ih =>
    simp only [List.foldl_cons]
    have h := ih (if c.severity > first.severity then c else first)
    rcases List.mem_cons.mp h with h | h
    · rw [h]
      split_ifs <;> simp
    · exact List.mem_cons_of_mem _ (List.mem_cons_of_mem _ h)

theorem checkEnhancedMedicalTerminology_bounds (d i c desc sp : String) :
    0 ≤ (checkEnhancedMedicalTerminology d i c desc sp).1 ∧
    (checkEnhancedMedicalTerminology d i c desc sp).1 ≤ 1 := by
  unfold checkEnhancedMedicalTerminology
  apply foldl_preserve (fun acc : ℚ × String => 0 ≤ acc.1 ∧ acc.1 ≤ 1)
  · exact ⟨le_refl 0, by norm_num⟩
  · intro b cat hcat hb
    dsimp only
    split_ifs with hdiag
    · split
      · exact hb
      · rename_i c0 cs0 hfil
        split_ifs with hgt
        · dsimp only
          have hmem : pickHighestSeverity c0 cs0 ∈ cat.conditions := by
            have h1 := pickHighestSeverity_mem c0 cs0
            rw [← hfil] at h1
            exact List.mem_of_mem_filter h1
          have hsev := termTable_severity_bounds cat hcat _ hmem
          have hcb := calculateMatchConfidence_bounds d (pickHighestSeverity c0 cs0)
            cat.category hsev.1 hsev.2
          exact ⟨hcb.1, by linarith [hcb.2]⟩
        · exact hb
    · exact hb

theorem synTable_confidence_bounds :
    ∀ g ∈ getMedicalSynonymDatabase, 0 ≤ g.confidence ∧ g.confidence ≤ 1 := by decide

theorem checkMedicalSemanticSimilarity_bounds (d c i : String) :
    0 ≤ (checkMedicalSemanticSimilarity d c i).1 ∧
    (checkMedicalSemanticSimilarity d c i).1 ≤ 1 := by
  unfold checkMedicalSemanticSimilarity
  apply foldl_preserve (fun acc : ℚ × String => 0 ≤ acc.1 ∧ acc.1 ≤ 1)
  · exact ⟨le_refl 0, by norm_num⟩
  · intro b t _ hb
    dsimp only
    split
    · exact hb
    · rename_i g hfind
      refine foldl_preserve (fun acc : ℚ × String => 0 ≤ acc.1 ∧ acc.1 ≤ 1) _ _ _ hb ?_
      intro b' t' _ hb'
      dsimp only
      split_ifs with hmem hgt
      · have hg := synTable_confidence_bounds g (List.mem_of_find?_eq_some hfind)
        exact ⟨mul_nonneg hg.1 (by norm_num), by nlinarith [hg.1, hg.2]⟩
      · exact hb'
      · exact hb'

theorem mechTable_severity_bounds :
    ∀ m ∈ getDrugMechanismContraindications, 0 ≤ m.severity ∧ m.severity ≤ 1 := by decide

theorem checkDrugMechanismContraindications_bounds (d c sp : String) :
    0 ≤ (checkDrugMechanismContraindications d c sp).1 ∧
    (checkDrugMechanismContraindications d c sp).1 ≤ 1 := by
  unfold checkDrugMechanismContraindications
  apply foldl_preserve (fun acc : ℚ × String => 0 ≤ acc.1 ∧ acc.1 ≤ 1)
  · exact ⟨le_refl 0, by norm_num⟩
  · intro b m hm hb
    dsimp only
    split_ifs with hcat hgt
    · have hs := mechTable_severity_bounds m hm
      exact ⟨mul_nonneg hs.1 (by norm_num), by nlinarith [hs.1, hs.2]⟩
    · exact hb
    · exact hb

theorem if_pair_bound {c : Prop} [Decidable c] {cand acc : ℚ × String}
    (hacc : 0 ≤ acc.1 ∧ acc.1 ≤ 1) (hcand : 0 ≤ cand.1 ∧ cand.1 ≤ 1) :
    0 ≤ (if c then cand else acc).1 ∧ (if c then cand else acc).1 ≤ 1 := by
  split_ifs <;> assumption

theorem performAdvancedMedicalMatching_confidence_bounds
    (diagnosis icd10Code condT descT specialty : String) :
    0 ≤ (performAdvancedMedicalMatching diagnosis icd10Code condT descT specialty).confidence ∧
    (performAdvancedMedicalMatching diagnosis icd10Code condT descT specialty).confidence ≤ 1 := by
  have ht := checkEnhancedMedicalTerminology_bounds (jsToLower diagnosis) (jsToLower icd10Code)
    (jsToLower condT) (jsToLower descT) specialty
  have hs := checkMedicalSemanticSimilarity_bounds (jsToLower diagnosis) (jsToLower condT)
    icd10Code
  have hm := checkDrugMechanismContraindications_bounds (jsToLower diagnosis) (jsToLower condT)
    specialty
  unfold performAdvancedMedicalMatching
  dsimp only
  refine if_pair_bound ?_ hm
  refine if_pair_bound ?_ hs
  refine if_pair_bound ?_ ht
  refine if_pair_bound ?_ ?_
  · exact if_pair_bound (by norm_num) (by norm_num [ratMax])
  · exact ratMax_bounds (if_pair_bound (by norm_num) (by norm_num [ratMax])) (by norm_num)

theorem performAdvancedMedicalMatching_isMatch (d i c desc sp : String) :
    (performAdvancedMedicalMatching d i c desc sp).isMatch
      = decide ((performAdvancedMedicalMatching d i c desc sp).confidence > 0.5) := by
  unfold performAdvancedMedicalMatching
  dsimp only

/-- C2: the matcher's confidence is always in [0, 1], and
`analyzeContraindicationsWithContext` retains a (diagnosis, statement) pair
exactly when that confidence is strictly greater than 0.5. -/
theorem matcher_confidence_spec :
    (∀ diagnosis icd10Code condT descT specialty : String,
       0 ≤ (performAdvancedMedicalMatching diagnosis icd10Code condT descT specialty).confidence ∧
       (performAdvancedMedicalMatching diagnosis icd10Code condT descT specialty).confidence ≤ 1) ∧
    (∀ (cs : List MedicationContraindication) (diagnosis icd10Code specialty : String)
       (c : MedicationContraindication), c ∈ cs →
       (performAdvancedMedicalMatching diagnosis icd10Code c.condition c.description specialty).confidence > 0.5 →
       toRetainedMatch c (performAdvancedMedicalMatching diagnosis icd10Code c.condition c.description specialty)
         ∈ analyzeContraindicationsWithContext cs diagnosis icd10Code specialty) ∧
    (∀ (cs : List MedicationContraindication) (diagnosis icd10Code specialty : String)
       (e : CMatch), e ∈ analyzeContraindicationsWithContext cs diagnosis icd10Code specialty →
       e.confidence > 0.5 ∧ ∃ c ∈ cs,
         e = toRetainedMatch c
           (performAdvancedMedicalMatching diagnosis icd10Code c.condition c.description specialty)) := by
  refine ⟨performAdvancedMedicalMatching_confidence_bounds, ?_, ?_⟩
  · intro cs diagnosis icd10Code specialty c hc hconf
    unfold analyzeContraindicationsWithContext
    apply List.mem_filterMap.mpr
    refine ⟨c, hc, ?_⟩
    rw [if_pos]
    rw [performAdvancedMedicalMatching_isMatch]
    simp [hconf]
  · intro cs diagnosis icd10Code specialty e he
    unfold analyzeContraindicationsWithContext at he
    obtain ⟨c, hc, heq⟩ := List.mem_filterMap.mp he
    by_cases hcond :
        ((performAdvancedMedicalMatching diagnosis icd10Code c.condition c.description specialty).isMatch
          && (performAdvancedMedicalMatching diagnosis icd10Code c.condition c.description specialty).confidence > 0.5) = true
    · rw [if_pos hcond] at heq
      obtain rfl := Option.some.inj heq
      have hconf : (performAdvancedMedicalMatching diagnosis icd10Code c.condition c.description specialty).confidence > 0.5 := by
        have := (Bool.and_eq_true _ _).mp hcond
        exact of_decide_eq_true this.2
      exact ⟨hconf, c, hc, rfl⟩
    · rw [if_neg hcond] at heq
      exact absurd heq (by simp)

/-- Witness for C2 on the asthma example: the statement
`(asthma, contraindicated)` is matched with confidence 0.9 and retained. -/
theorem matcher_confidence_spec_witness :
    ((⟨"asthma", "contraindicated", "patients with asthma should not use"⟩ : MedicationContraindication)
        ∈ [(⟨"asthma", "contraindicated", "patients with asthma should not use"⟩ : MedicationContraindication)]) ∧
    (performAdvancedMedicalMatching "Asthma, unspecified" "J45.9" "asthma"
        "patients with asthma should not use" "Pulmonology").confidence > 0.5 ∧
    toRetainedMatch ⟨"asthma", "contraindicated", "patients with asthma should not use"⟩
        (performAdvancedMedicalMatching "Asthma, unspecified" "J45.9" "asthma"
          "patients with asthma should not use" "Pulmonology")
      ∈ analyzeContraindicationsWithContext
          [⟨"asthma", "contraindicated", "patients with asthma should not use"⟩]
          "Asthma, unspecified" "J45.9" "Pulmonology" :=
  ⟨by decide, by decide,
   matcher_confidence_spec.2.1
     [⟨"asthma", "contraindicated", "patients with asthma should not use"⟩]
     "Asthma, unspecified" "J45.9" "Pulmonology"
     ⟨"asthma", "contraindicated", "patients with asthma should not use"⟩
     (by decide) (by decide)⟩

/-- C1: if the matcher retains a match with severity `contraindicated` and
confidence > 0.8, the verdict of `performSophisticatedRiskAssessment` is
riskLevel = high and isCompatible = false, for every diagnosis, ICD-10
code, specialty and medication — i.e. regardless of the five sub-scores and
the composite score, which the proof never inspects. -/
theorem overrideForcesHighAndIncompatible
    (cs : List MedicationContraindication) (diagnosis icd10Code specialty : String)
    (medication : Option MedInfo) (medicationName : String)
    (h : ∃ m ∈ analyzeContraindicationsWithContext cs diagnosis icd10Code specialty,
          m.severity = "contraindicated" ∧ m.confidence > 0.8) :
    (performSophisticatedRiskAssessment cs diagnosis icd10Code specialty medication
        medicationName).riskLevel = .high ∧
    (performSophisticatedRiskAssessment cs diagnosis icd10Code specialty medication
        medicationName).isCompatible = false := by
  obtain ⟨m, hm, hsev, hconf⟩ := h
  have hmem : criticalFindingText m ∈
      (analyzeContraindicationSeverityWithContext cs diagnosis icd10Code specialty).2 := by
    unfold analyzeContraindicationSeverityWithContext
    exact criticalFinding_mem_of_match hm hsev hconf
  have hany1 : ((analyzeContraindicationSeverityWithContext cs diagnosis icd10Code specialty).2.any
      fun finding => jsIncludes finding "CRITICAL") = true :=
    hasCritical_of_mem hmem (criticalFindingText_includes_CRITICAL m)
  have hany2 : ((analyzeContraindicationSeverityWithContext cs diagnosis icd10Code specialty).2.any
      fun finding => jsIncludes finding "CRITICAL" && jsIncludes finding "Contraindicated") = true := by
    apply List.any_eq_true.mpr
    refine ⟨criticalFindingText m, hmem, ?_⟩
    rw [criticalFindingText_includes_CRITICAL, criticalFindingText_includes_Contraindicated]
    rfl
  unfold performSophisticatedRiskAssessment
  dsimp only
  constructor
  · simp [determineFinalRiskLevel, hany1]
  · simp [determineCompatibilityWithSophisticatedLogic, hany2]

/-- Witness for C1 on the asthma example. -/
theorem overrideForcesHighAndIncompatible_witness :
    (∃ m ∈ analyzeContraindicationsWithContext
        [⟨"asthma", "contraindicated", "patients with asthma should not use"⟩]
        "Asthma, unspecified" "J45.9" "Pulmonology",
      m.severity = "contraindicated" ∧ m.confidence > 0.8) ∧
    (performSophisticatedRiskAssessment
        [⟨"asthma", "contraindicated", "patients with asthma should not use"⟩]
        "Asthma, unspecified" "J45.9" "Pulmonology" (some ⟨some "aspirin"⟩)
        "Aspirin").riskLevel = .high ∧
    (performSophisticatedRiskAssessment
        [⟨"asthma", "contraindicated", "patients with asthma should not use"⟩]
        "Asthma, unspecified" "J45.9" "Pulmonology" (some ⟨some "aspirin"⟩)
        "Aspirin").isCompatible = false :=
  ⟨by decide,
   overrideForcesHighAndIncompatible
     [⟨"asthma", "contraindicated", "patients with asthma should not use"⟩]
     "Asthma, unspecified" "J45.9" "Pulmonology" (some ⟨some "aspirin"⟩) "Aspirin"
     (by decide)⟩

theorem levList_comm : ∀ xs ys : List Char, levList xs ys = levList ys xs
  | [], [] => rfl
  | [], _ :: _ => by simp [levList]
  | _ :: _, [] => by simp [levList]
  | x :: xs, y :: ys => by
    simp only [levList]
    rcases eq_or_ne x y with h | h
    · subst h
      simp [levList_comm xs ys]
    · rw [if_neg h, if_neg (Ne.symm h)]
      rw [levList_comm xs ys, levList_comm (x :: xs) ys, levList_comm xs (y :: ys)]
      rw [Nat.min_comm (levList ys (x :: xs)) (levList (y :: ys) xs)]
termination_by xs ys => xs.length + ys.length

theorem levList_le_max : ∀ xs ys : List Char, levList xs ys ≤ max xs.length ys.length
  | [], ys => by simp [levList]
  | _ :: _, [] => by simp [levList]
  | x :: xs, y :: ys => by
    simp only [levList, List.length_cons]
    have h1 := levList_le_max xs ys
    split_ifs with h
    · omega
    · have hm : min (levList xs ys) (min (levList (x :: xs) ys) (levList xs (y :: ys)))
          ≤ levList xs ys := Nat.min_le_left _ _
      omega
termination_by xs ys => xs.length + ys.length

theorem string_length_pos_of_ne_empty {s : String} (h : s ≠ "") : 0 < s.length := by
  rcases hd : s.data with _ | _
  · exact absurd (by cases s; simpa [String.ext_iff] using hd) h
  · have : s.length = s.data.length := rfl
    rw [this, hd]
    simp

theorem levenshteinDistance_le_max (s1 s2 : String) :
    levenshteinDistance s1 s2 ≤ max s1.length s2.length :=
  levList_le_max s1.data s2.data

theorem calculateSimilarityScore_closed_form (s1 s2 : String) (h1 : s1 ≠ "") (h2 : s2 ≠ "") :
    calculateSimilarityScore s1 s2 =
      (((max s1.length s2.length : ℕ) : ℚ) - levenshteinDistance s1 s2)
        / ((max s1.length s2.length : ℕ) : ℚ) := by
  unfold calculateSimilarityScore
  rw [if_neg (by simp [h1, h2])]
  dsimp only
  rcases lt_or_ge s2.length s1.length with hlen | hlen
  · simp only [if_pos (show s1.length > s2.length from hlen)]
    rw [if_neg (by have := string_length_pos_of_ne_empty h1; omega)]
    rw [Nat.max_eq_left (le_of_lt hlen)]
  · simp only [if_neg (show ¬s1.length > s2.length by omega)]
    rw [if_neg (by have := string_length_pos_of_ne_empty h2; omega)]
    rw [Nat.max_eq_right hlen]
    unfold levenshteinDistance
    rw [levList_comm s2.data s1.data]

theorem calculateSimilarityScore_nonneg (s1 s2 : String) : 0 ≤ calculateSimilarityScore s1 s2 := by
  by_cases h1 : s1 = ""
  · simp [calculateSimilarityScore, h1]
  by_cases h2 : s2 = ""
  · simp [calculateSimilarityScore, h2]
  rw [calculateSimilarityScore_closed_form s1 s2 h1 h2]
  have hle : (levenshteinDistance s1 s2 : ℚ) ≤ ((max s1.length s2.length : ℕ) : ℚ) := by
    exact_mod_cast levenshteinDistance_le_max s1 s2
  apply div_nonneg (by linarith) (by positivity)

theorem ratMax_nonneg {a b : ℚ} (ha : 0 ≤ a) (hb : 0 ≤ b) : 0 ≤ ratMax a b := by
  unfold ratMax
  split_ifs <;> assumption

theorem candidateMaxScore_nonneg (ns : String) (m : MedCandidate) :
    0 ≤ candidateMaxScore ns m := by
  unfold candidateMaxScore
  dsimp only
  apply ratMax_nonneg (calculateSimilarityScore_nonneg _ _)
  apply ratMax_nonneg (calculateSimilarityScore_nonneg _ _)
  split
  · exact le_refl 0
  · rename_i s ss heq
    have hmem : ∀ x ∈ s :: ss, 0 ≤ x := by
      intro x hx
      rw [← heq] at hx
      obtain ⟨ing, _, rfl⟩ := List.mem_map.mp hx
      exact calculateSimilarityScore_nonneg _ _
    refine foldl_preserve (fun q : ℚ => 0 ≤ q) _ _ _ (hmem s (List.mem_cons_self _ _)) ?_
    intro b a ha hb
    exact ratMax_nonneg hb (hmem a (List.mem_cons_of_mem _ ha))

theorem bestFold_invariant (ns : String) :
    ∀ (l : List MedCandidate) (acc : MedCandidate × ℚ),
      acc.2 ≤ (l.foldl (bestStep ns) acc).2 ∧
      (∀ m ∈ l, candidateMaxScore ns m ≤ (l.foldl (bestStep ns) acc).2) ∧
      (l.foldl (bestStep ns) acc = acc ∨
        ((l.foldl (bestStep ns) acc).1 ∈ l ∧
         (l.foldl (bestStep ns) acc).2 = candidateMaxScore ns (l.foldl (bestStep ns) acc).1)) := by
  intro l
  induction l with
  | nil => intro acc; simp
  | cons x xs ih =>
    intro acc
    simp only [List.foldl_cons]
    obtain ⟨ih1, ih2, ih3⟩ := ih (bestStep ns acc x)
    have hstep : acc.2 ≤ (bestStep ns acc x).2 := by
      unfold bestStep
      dsimp only
      split_ifs with h
      · exact le_of_lt h
      · exact le_refl _
    refine ⟨le_trans hstep ih1, ?_, ?_⟩
    · intro m hm
      rcases List.mem_cons.mp hm with rfl | hm'
      · have hx : candidateMaxScore ns m ≤ (bestStep ns acc m).2 := by
          unfold bestStep
          dsimp only
          split_ifs with h
          · exact le_refl _
          · exact le_of_not_lt h
        exact le_trans hx ih1
      · exact ih2 m hm'
    · rcases ih3 with h | ⟨hmem, heq⟩
      · rw [h]
        unfold bestStep
        dsimp only
        split_ifs with hc
        · exact Or.inr ⟨List.mem_cons_self _ _, rfl⟩
        · exact Or.inl rfl
      · exact Or.inr ⟨List.mem_cons_of_mem _ hmem, heq⟩

/-- C10: the similarity score of two non-empty strings is exactly
`1 - editDistance / max(len)` and lies in [0, 1]; and
`findBestMedicationMatch` returns a candidate from the list that maximizes
the per-candidate maximum similarity over brand name, generic name and
active ingredients (all normalized, as in the source). -/
theorem similarity_and_bestMatch_spec :
    (∀ s1 s2 : String, s1 ≠ "" → s2 ≠ "" →
       calculateSimilarityScore s1 s2 =
         1 - (levenshteinDistance s1 s2 : ℚ) / ((max s1.length s2.length : ℕ) : ℚ) ∧
       0 ≤ calculateSimilarityScore s1 s2 ∧ calculateSimilarityScore s1 s2 ≤ 1) ∧
    (∀ (searchTerm : String) (medications : List MedCandidate) (best : MedCandidate),
       findBestMedicationMatch searchTerm medications = some best →
       best ∈ medications ∧ ∀ m ∈ medications,
         candidateMaxScore (normalizeMedicationName searchTerm) m ≤
         candidateMaxScore (normalizeMedicationName searchTerm) best) := by
  constructor
  · intro s1 s2 h1 h2
    have hclosed := calculateSimilarityScore_closed_form s1 s2 h1 h2
    have hpos : 0 < max s1.length s2.length :=
      lt_of_lt_of_le (string_length_pos_of_ne_empty h1) (le_max_left _ _)
    have hposq : (0 : ℚ) < ((max s1.length s2.length : ℕ) : ℚ) := by exact_mod_cast hpos
    have hle : (levenshteinDistance s1 s2 : ℚ) ≤ ((max s1.length s2.length : ℕ) : ℚ) := by
      exact_mod_cast levenshteinDistance_le_max s1 s2
    refine ⟨?_, calculateSimilarityScore_nonneg s1 s2, ?_⟩
    · rw [hclosed]
      have hne : ((max s1.length s2.length : ℕ) : ℚ) ≠ 0 := ne_of_gt hposq
      push_cast at hne ⊢
      rw [sub_div, div_self hne]
    · rw [hclosed]
      rw [div_le_one hposq]
      have : (0 : ℚ) ≤ (levenshteinDistance s1 s2 : ℚ) := by positivity
      linarith
  · intro searchTerm medications best h
    cases medications with
    | nil => exact absurd h (by simp [findBestMedicationMatch])
    | cons m0 rest =>
      unfold findBestMedicationMatch at h
      dsimp only at h
      obtain rfl := Option.some.inj h
      obtain ⟨hacc, hall, hform⟩ :=
        bestFold_invariant (normalizeMedicationName searchTerm) (m0 :: rest) (m0, (0 : ℚ))
      rcases hform with heqacc | ⟨hmem, hsc⟩
      · rw [heqacc]
        refine ⟨List.mem_cons_self _ _, ?_⟩
        intro m hm
        have h0 := hall m hm
        rw [heqacc] at h0
        exact le_trans h0 (candidateMaxScore_nonneg _ _)
      · refine ⟨hmem, ?_⟩
        intro m hm
        rw [← hsc]
        exact hall m hm

/-- Witness for C10: the similarity formula at `("aspirin", "aspirln")`,
and the best match over a singleton candidate list (whose selection is
forced, so the hypothesis is dischargeable without running the edit
distance, which is defined by well-founded recursion). -/
theorem similarity_and_bestMatch_spec_witness :
    ("aspirin" ≠ "" ∧ "aspirln" ≠ "" ∧
      calculateSimilarityScore "aspirin" "aspirln" =
        1 - (levenshteinDistance "aspirin" "aspirln" : ℚ)
          / ((max "aspirin".length "aspirln".length : ℕ) : ℚ) ∧
      0 ≤ calculateSimilarityScore "aspirin" "aspirln" ∧
      calculateSimilarityScore "aspirin" "aspirln" ≤ 1) ∧
    (findBestMedicationMatch "aspirin" [⟨"Bayer Aspirin", "aspirin", ["ASPIRIN"]⟩]
        = some ⟨"Bayer Aspirin", "aspirin", ["ASPIRIN"]⟩ ∧
      (⟨"Bayer Aspirin", "aspirin", ["ASPIRIN"]⟩ : MedCandidate)
        ∈ [(⟨"Bayer Aspirin", "aspirin", ["ASPIRIN"]⟩ : MedCandidate)] ∧
      ∀ m ∈ [(⟨"Bayer Aspirin", "aspirin", ["ASPIRIN"]⟩ : MedCandidate)],
        candidateMaxScore (normalizeMedicationName "aspirin") m ≤
        candidateMaxScore (normalizeMedicationName "aspirin")
          ⟨"Bayer Aspirin", "aspirin", ["ASPIRIN"]⟩) :=
  ⟨⟨by decide, by decide,
    similarity_and_bestMatch_spec.1 "aspirin" "aspirln" (by decide) (by decide)⟩,
   by
     unfold findBestMedicationMatch
     dsimp only
     rw [List.foldl_cons, List.foldl_nil]
     unfold bestStep
     dsimp only
     split_ifs <;> rfl,
   (similarity_and_bestMatch_spec.2 "aspirin" [⟨"Bayer Aspirin", "aspirin", ["ASPIRIN"]⟩]
     ⟨"Bayer Aspirin", "aspirin", ["ASPIRIN"]⟩
     (by
       unfold findBestMedicationMatch
       dsimp only
       rw [List.foldl_cons, List.foldl_nil]
       unfold bestStep
       dsimp only
       split_ifs <;> rfl)).1,
   (similarity_and_bestMatch_spec.2 "aspirin" [⟨"Bayer Aspirin", "aspirin", ["ASPIRIN"]⟩]
     ⟨"Bayer Aspirin", "aspirin", ["ASPIRIN"]⟩
     (by
       unfold findBestMedicationMatch
       dsimp only
       rw [List.foldl_cons, List.foldl_nil]
       unfold bestStep
       dsimp only
       split_ifs <;> rfl)).2⟩

/-- C5 (counterexample): with the default threshold 5, the trace
fail, fail, fail, fail, success, fail, fail leaves the breaker `closed`
after six calls and `open` after the seventh — although only 2 consecutive
failures precede the transition.  A success while closed merely decrements
the failure counter (`Math.max(0, failures - 1)`, "gradual recovery"), so
the counter is not a consecutive-failure count and closed→open does not
happen exactly when 5 consecutive failures occur. -/
theorem C5_counterexample :
    (cbRun (createCircuitBreaker 5 60000)
      [(0, false), (0, false), (0, false), (0, false), (0, true), (0, false)]).state
      = CBState.closed ∧
    (cbRun (createCircuitBreaker 5 60000)
      [(0, false), (0, false), (0, false), (0, false), (0, true), (0, false), (0, false)]).state
      = CBState.open' ∧
    trailingFailures
      [((0:ℤ), false), (0, false), (0, false), (0, false), (0, true), (0, false), (0, false)] = 2 ∧
    (2 : ℕ) < 5 := by
  refine ⟨?_, ?_, ?_, ?_⟩ <;> decide

theorem CBInv_init (threshold : ℕ) (timeout : ℤ) (h : 0 < threshold) :
    CBInv (createCircuitBreaker threshold timeout) := by
  unfold CBInv createCircuitBreaker
  exact ⟨h, fun _ => h, fun hc => absurd rfl hc⟩

/-- C5 (amended): the state machine of `executeWithCircuitBreaker`, for any
breaker state satisfying the reachability invariant `CBInv` (established at
creation and preserved by every step): a failure while closed opens the
breaker exactly when the failure counter — incremented by each failure and
decremented (floored at 0) by each success, hence not a consecutive count —
reaches the threshold; while open and within the cooldown every call is
served from the fallback without invoking the remote call and the state is
unchanged; once the cooldown has strictly elapsed the next call runs as a
half-open trial; a second consecutive half-open success closes the breaker
and clears the counter; and any failure of a trial call re-opens the
breaker and resets the cooldown clock to `now`. -/
theorem circuitBreaker_spec (cb : CircuitBreakerState) (now : ℤ) (b : Bool)
    (hinv : CBInv cb) :
    CBInv (executeWithCircuitBreaker cb now b).1 ∧
    (cb.state = .closed →
      ((executeWithCircuitBreaker cb now false).1.state = .open' ↔
        cb.threshold ≤ cb.failures + 1)) ∧
    (cb.state = .closed →
      (executeWithCircuitBreaker cb now true).1.state = .closed ∧
      (executeWithCircuitBreaker cb now true).1.failures = cb.failures - 1) ∧
    (cb.state = .open' → now - cb.lastFailureTime ≤ cb.timeout →
      executeWithCircuitBreaker cb now b = (cb, .shortCircuit)) ∧
    (cb.state = .open' → now - cb.lastFailureTime > cb.timeout →
      (executeWithCircuitBreaker cb now true).1.state = .halfOpen ∧
      (executeWithCircuitBreaker cb now true).1.successCount = 1 ∧
      (executeWithCircuitBreaker cb now true).2 = .live) ∧
    (cb.state = .halfOpen → cb.successCount = 1 →
      (executeWithCircuitBreaker cb now true).1.state = .closed ∧
      (executeWithCircuitBreaker cb now true).1.failures = 0) ∧
    (cb.state = .halfOpen →
      (executeWithCircuitBreaker cb now false).1.state = .open' ∧
      (executeWithCircuitBreaker cb now false).1.lastFailureTime = now) ∧
    (cb.state = .open' → now - cb.lastFailureTime > cb.timeout →
      (executeWithCircuitBreaker cb now false).1.state = .open' ∧
      (executeWithCircuitBreaker cb now false).1.lastFailureTime = now) ∧
    ((executeWithCircuitBreaker cb now b).2.remoteInvoked = false ↔
      cb.state = .open' ∧ now - cb.lastFailureTime ≤ cb.timeout) := by
  obtain ⟨hth, hcl, hop⟩ := hinv
  rcases cb with ⟨st, f, lft, sc, th, to'⟩
  simp only at hcl hop hth
  refine ⟨?_, ?_, ?_, ?_, ?_, ?_, ?_, ?_, ?_⟩
  · unfold executeWithCircuitBreaker CBInv
    dsimp only
    cases st <;> cases b <;> split_ifs <;> dsimp only <;>
      refine ⟨by omega, fun h => ?_, fun h => ?_⟩ <;> simp_all <;> omega
  · intro hc
    simp only at hc
    subst hc
    unfold executeWithCircuitBreaker
    dsimp only
    split_ifs <;> simp_all
  · intro hc
    simp only at hc
    subst hc
    unfold executeWithCircuitBreaker
    dsimp only
    split_ifs <;> simp_all
  · intro hc hle
    simp only at hc hle
    subst hc
    unfold executeWithCircuitBreaker
    dsimp only
    split_ifs <;> simp_all <;> omega
  · intro hc hgt
    simp only at hc hgt
    subst hc
    unfold executeWithCircuitBreaker
    dsimp only
    split_ifs <;> simp_all <;> omega
  · intro hc hsc
    simp only at hc hsc
    subst hc
    unfold executeWithCircuitBreaker
    dsimp only
    split_ifs <;> simp_all <;> omega
  · intro hc
    simp only at hc
    subst hc
    have hge : th ≤ f := hop (by simp)
    unfold executeWithCircuitBreaker
    dsimp only
    split_ifs <;> simp_all <;> omega
  · intro hc hgt
    simp only at hc hgt
    subst hc
    have hge : th ≤ f := hop (by simp)
    unfold executeWithCircuitBreaker
    dsimp only
    split_ifs <;> simp_all <;> omega
  · unfold executeWithCircuitBreaker
    dsimp only
    cases st <;> cases b <;> split_ifs <;>
      simp_all [CBServed.remoteInvoked] <;> omega


/-- Witness for C5 at a fresh default breaker and a failing first call. -/
theorem circuitBreaker_spec_witness :
    CBInv (createCircuitBreaker 5 60000) ∧
    ((createCircuitBreaker 5 60000).state = .closed →
      ((executeWithCircuitBreaker (createCircuitBreaker 5 60000) 0 false).1.state = .open' ↔
        (createCircuitBreaker 5 60000).threshold ≤ (createCircuitBreaker 5 60000).failures + 1)) :=
  ⟨CBInv_init 5 60000 (by decide),
   (circuitBreaker_spec (createCircuitBreaker 5 60000) 0 false
     (CBInv_init 5 60000 (by decide))).2.1⟩

theorem cacheRead_cacheWrite {α : Type} (cache : List (String × CacheEntry α)) (key : String)
    (v : α) (t0 exp t : ℤ) :
    cacheRead (cacheWrite cache key v t0 exp) key t = if t ≤ t0 + exp then some v else none := by
  unfold cacheRead cacheWrite cacheLookup
  rw [List.find?_cons_of_pos _ (by simp)]
  simp only [Option.map_some']
  split_ifs <;> first | rfl | omega

theorem cacheRead_cleanup_cacheWrite {α : Type} (cache : List (String × CacheEntry α))
    (key : String) (v : α) (t0 exp t : ℤ) (hexp : 0 ≤ exp) :
    cacheRead (cleanupExpiredEntries (cacheWrite cache key v t0 exp) t0) key t =
      if t ≤ t0 + exp then some v else none := by
  unfold cacheRead cacheWrite cleanupExpiredEntries cacheLookup
  rw [List.filter_cons_of_pos (by simp; omega)]
  rw [List.find?_cons_of_pos _ (by simp)]
  simp only [Option.map_some']
  split_ifs <;> first | rfl | omega

/-- C6: for both reference clients, a value stored under a key is returned
by every read strictly before the entry's expiry time
(`storeTime + cacheExpirationMs`), and every read strictly after it is a
miss (`null`), never the stale value. -/
theorem cache_roundtrip_spec :
    (∀ {α : Type} (cache : List (String × CacheEntry α)) (key : String) (v : α) (t0 t : ℤ),
       (t < t0 + MedicationService.cacheExpirationMs →
         MedicationService.getFromCache (MedicationService.setCache cache key v t0) key t
           = some v) ∧
       (t > t0 + MedicationService.cacheExpirationMs →
         MedicationService.getFromCache (MedicationService.setCache cache key v t0) key t
           = none)) ∧
    (∀ {α : Type} (cache : List (String × CacheEntry α)) (key : String) (v : α) (t0 t : ℤ),
       (t < t0 + Icd10Service.cacheExpirationMs →
         Icd10Service.getFromCache (Icd10Service.setCache cache key v t0) key t = some v) ∧
       (t > t0 + Icd10Service.cacheExpirationMs →
         Icd10Service.getFromCache (Icd10Service.setCache cache key v t0) key t = none)) ∧
    (∀ {α : Type} (cache : List (String × CacheEntry α)) (key : String) (v : α) (t0 t : ℤ),
       (t < t0 + Icd10Service.cacheExpirationMs →
         Icd10Service.getFromCache (Icd10Service.setValidationCache cache key v t0) key t
           = some v) ∧
       (t > t0 + Icd10Service.cacheExpirationMs →
         Icd10Service.getFromCache (Icd10Service.setValidationCache cache key v t0) key t
           = none)) := by
  refine ⟨?_, ?_, ?_⟩
  · intro α cache key v t0 t
    simp only [MedicationService.getFromCache, MedicationService.setCache]
    constructor <;> intro ht <;> split_ifs with hlen
    · rw [cacheRead_cleanup_cacheWrite _ _ _ _ _ _ (by unfold MedicationService.cacheExpirationMs; omega),
        if_pos (le_of_lt ht)]
    · rw [cacheRead_cacheWrite, if_pos (le_of_lt ht)]
    · rw [cacheRead_cleanup_cacheWrite _ _ _ _ _ _ (by unfold MedicationService.cacheExpirationMs; omega),
        if_neg (by omega)]
    · rw [cacheRead_cacheWrite, if_neg (by omega)]
  · intro α cache key v t0 t
    simp only [Icd10Service.getFromCache, Icd10Service.setCache]
    constructor <;> intro ht <;> split_ifs with hlen
    · rw [cacheRead_cleanup_cacheWrite _ _ _ _ _ _ (by unfold Icd10Service.cacheExpirationMs; omega),
        if_pos (le_of_lt ht)]
    · rw [cacheRead_cacheWrite, if_pos (le_of_lt ht)]
    · rw [cacheRead_cleanup_cacheWrite _ _ _ _ _ _ (by unfold Icd10Service.cacheExpirationMs; omega),
        if_neg (by omega)]
    · rw [cacheRead_cacheWrite, if_neg (by omega)]
  · intro α cache key v t0 t
    simp only [Icd10Service.getFromCache, Icd10Service.setValidationCache]
    constructor <;> intro ht
    · rw [cacheRead_cacheWrite, if_pos (le_of_lt ht)]
    · rw [cacheRead_cacheWrite, if_neg (by omega)]

/-- Witness for C6 at a concrete store/read pair. -/
theorem cache_roundtrip_spec_witness :
    ((1 : ℤ) < 0 + MedicationService.cacheExpirationMs ∧
      MedicationService.getFromCache
        (MedicationService.setCache ([] : List (String × CacheEntry (List MedCandidate))) "k" [] 0)
        "k" 1 = some []) ∧
    ((86400001 : ℤ) > 0 + Icd10Service.cacheExpirationMs ∧
      Icd10Service.getFromCache
        (Icd10Service.setCache ([] : List (String × CacheEntry (List Icd10Service.Icd10SearchResult))) "k" [] 0)
        "k" 86400001 = none) :=
  ⟨⟨by decide, (cache_roundtrip_spec.1 [] "k" [] 0 1).1 (by decide)⟩,
   ⟨by decide, (cache_roundtrip_spec.2.1 [] "k" [] 0 86400001).2 (by decide)⟩⟩

/-- C7 (counterexample): `checkRateLimit` consults only the hourly-window
counter, so neither the per-minute nor the per-day limit ever blocks a
call.  Concretely: (1) with limits configured via the public
`configureApiLimits` to `minuteLimit = 2` (`hourlyLimit = 240`), three
successful calls within one minute — a trace fully reachable from a fresh
client — are all permitted, although the claim requires the third to fail
with RateLimitExceeded; and (2) under the standard limits, a client state
whose history holds 1001 same-day successful calls (reachable by 240 calls
per hourly window over five windows) still has its next call permitted and
issued, although its daily count 1001 exceeds dailyLimit = 1000.  (Under
the source's own tiers the same failure needs 241 calls in one minute of
the enhanced tier, where minuteLimit = 240 < hourlyLimit = 5000.) -/
theorem C7_counterexample :
    ((MedicationService.runSearchCalls
        { dailyLimit := 1000, hourlyLimit := 240, minuteLimit := 2 } 3).isSome = true ∧
      3 > 2) ∧
    ((MedicationService.searchMedication
        { cache := [], rateLimit := { requests := 0, resetTime := 18000000 }
        , history := List.replicate 1001
            { timestamp := 0, endpoint := "search", success := true, errorType := none } }
        MedicationService.standardLimits "aspirin" 10 14400001
        (.success [])).1 = .ok [] ∧
      (MedicationService.getDetailedStats
        (List.replicate 1001
          { timestamp := 0, endpoint := "search", success := true, errorType := none })
        MedicationService.standardLimits 14400001 0).dailyUsage = 1001 ∧
      MedicationService.standardLimits.dailyLimit = 1000) := by
  refine ⟨⟨by decide, by decide⟩, by rfl, by decide, by decide⟩

theorem jsStartsWith_of_parts (s pre : String) (suf : List Char)
    (h : s.data = pre.data ++ suf) : jsStartsWith s pre = true := by
  simp only [jsStartsWith, decide_eq_true_eq]
  exact ⟨suf, h.symm⟩

/-- C7 (amended): the pre-call gate `checkRateLimit` permits a call exactly
when the hourly-window counter (reset to 0 when `now ≥ resetTime`) is
strictly below `hourlyLimit`; at the limit the call fails with a
`Rate limit exceeded` error carrying a retry-after estimate, without being
issued (no usage record).  The per-minute and per-day limits only enter the
reported statistics: `canMakeCall` is true exactly when all three window
counts of successful calls are strictly below their limits.  Consequently
`N > minuteLimit` calls in one minute are refused only insofar as they also
exhaust the hourly window. -/
theorem rateLimit_spec :
    (∀ (rl : MedicationService.RateLimitState) (limits : MedicationService.ApiLimits) (now : ℤ),
       (MedicationService.checkRateLimit rl limits now).isOk = true ↔
         (if now ≥ rl.resetTime then 0 else rl.requests) < limits.hourlyLimit) ∧
    (∀ (history : List MedicationService.ApiCallRecord)
       (limits : MedicationService.ApiLimits) (now dayStart : ℤ),
       (MedicationService.getDetailedStats history limits now dayStart).canMakeCall = true ↔
         ((MedicationService.getDetailedStats history limits now dayStart).dailyUsage
             < limits.dailyLimit ∧
          (MedicationService.getDetailedStats history limits now dayStart).hourlyUsage
             < limits.hourlyLimit ∧
          (MedicationService.getDetailedStats history limits now dayStart).minuteUsage
             < limits.minuteLimit)) ∧
    (∀ (st : MedicationService.MedSvcState) (limits : MedicationService.ApiLimits)
       (name : String) (maxResults : ℕ) (now : ℤ)
       (outcome : MedicationService.RemoteOutcome (List MedCandidate)),
       jsTrim name ≠ "" →
       MedicationService.getFromCache st.cache
         ("search:" ++ jsToLower (jsTrim name) ++ ":" ++ toString maxResults) now = none →
       limits.hourlyLimit ≤ (if now ≥ st.rateLimit.resetTime then 0 else st.rateLimit.requests) →
       ∃ msg,
         (MedicationService.searchMedication st limits name maxResults now outcome).1
           = .error msg ∧
         jsStartsWith msg "Rate limit exceeded" = true ∧
         (MedicationService.searchMedication st limits name maxResults now outcome).2.history
           = st.history) := by
  refine ⟨?_, ?_, ?_⟩
  · intro rl limits now
    unfold MedicationService.checkRateLimit
    dsimp only
    by_cases hroll : now ≥ rl.resetTime
    · simp only [if_pos hroll]
      split_ifs with h <;>
        simp only [Except.isOk, Except.toBool, Bool.false_eq_true, false_iff, true_iff,
          not_lt] <;> omega
    · simp only [if_neg hroll]
      split_ifs with h <;>
        simp only [Except.isOk, Except.toBool, Bool.false_eq_true, false_iff, true_iff,
          not_lt] <;> omega
  · intro history limits now dayStart
    unfold MedicationService.getDetailedStats
    simp only [Bool.and_eq_true, decide_eq_true_eq]
    omega
  · intro st limits name maxResults now outcome hname hmiss hge
    have hchk : ∀ rl1, rl1 = (if now ≥ st.rateLimit.resetTime then
          ({ requests := 0, resetTime := now + 3600000 } : MedicationService.RateLimitState)
        else st.rateLimit) →
        MedicationService.checkRateLimit st.rateLimit limits now
          = .error ("Rate limit exceeded. Please wait "
              ++ toString (MedicationService.ceilDiv (rl1.resetTime - now) 60000)
              ++ " minutes before making more requests.") := by
      intro rl1 hrl1
      unfold MedicationService.checkRateLimit
      dsimp only
      rw [← hrl1, if_pos ?hcond]
      case hcond =>
        rw [hrl1]
        by_cases hroll : now ≥ st.rateLimit.resetTime
        · rw [if_pos hroll] at hge ⊢
          simpa using hge
        · rw [if_neg hroll] at hge ⊢
          exact hge
    unfold MedicationService.searchMedication
    rw [if_neg hname]
    dsimp only
    rw [hmiss]
    rw [hchk _ rfl]
    refine ⟨_, rfl, ?_, rfl⟩
    apply jsStartsWith_of_parts _ _
      (". Please wait ".data
        ++ (toString (MedicationService.ceilDiv
              ((if now ≥ st.rateLimit.resetTime then
                  ({ requests := 0, resetTime := now + 3600000 } : MedicationService.RateLimitState)
                else st.rateLimit).resetTime - now) 60000)).data
        ++ " minutes before making more requests.".data)
    simp only [String.data_append, List.append_assoc]
    rfl

/-- Witness for C7: a client state sitting exactly at the hourly limit. -/
theorem rateLimit_spec_witness :
    (jsTrim "aspirin" ≠ "") ∧
    (MedicationService.getFromCache
      (({ cache := [], rateLimit := { requests := 240, resetTime := 3600000 }, history := [] }
        : MedicationService.MedSvcState)).cache
      ("search:" ++ jsToLower (jsTrim "aspirin") ++ ":" ++ toString 10) 0 = none) ∧
    (MedicationService.standardLimits.hourlyLimit ≤
      (if (0:ℤ) ≥ (3600000:ℤ) then 0 else 240)) ∧
    (∃ msg,
      (MedicationService.searchMedication
        { cache := [], rateLimit := { requests := 240, resetTime := 3600000 }, history := [] }
        MedicationService.standardLimits "aspirin" 10 0 (.success [])).1 = .error msg ∧
      jsStartsWith msg "Rate limit exceeded" = true ∧
      (MedicationService.searchMedication
        { cache := [], rateLimit := { requests := 240, resetTime := 3600000 }, history := [] }
        MedicationService.standardLimits "aspirin" 10 0 (.success [])).2.history = []) :=
  ⟨by decide, by decide, by decide,
   rateLimit_spec.2.2
     { cache := [], rateLimit := { requests := 240, resetTime := 3600000 }, history := [] }
     MedicationService.standardLimits "aspirin" 10 0 (.success [])
     (by decide) (by decide) (by decide)⟩

theorem icd10_read_after_setCache {α : Type} (cache : List (String × CacheEntry α))
    (key : String) (v : α) (now : ℤ) :
    Icd10Service.getFromCache (Icd10Service.setCache cache key v now) key now = some v := by
  unfold Icd10Service.getFromCache Icd10Service.setCache
  dsimp only
  split_ifs
  · rw [cacheRead_cleanup_cacheWrite cache key v now Icd10Service.cacheExpirationMs now
      (by simp only [Icd10Service.cacheExpirationMs]; omega)]
    rw [if_pos (by simp only [Icd10Service.cacheExpirationMs]; omega)]
  · rw [cacheRead_cacheWrite, if_pos (by simp only [Icd10Service.cacheExpirationMs]; omega)]

/-- C8 (counterexample): on a timeout (`AbortError`) the diagnosis client
does NOT fall back to the static table: `searchIcd10Code` re-throws
`ICD-10 search request timed out` and caches nothing, although its static
table does cover the searched term (`getFallbackSearchResults` is
non-empty for it), so the claimed fallback answer was available. -/
theorem C8_counterexample :
    Icd10Service.searchIcd10Code [] "diabetes" 20 0 .timeout
      = (.error "ICD-10 search request timed out", []) ∧
    Icd10Service.getFallbackSearchResults (jsToLower (jsTrim "diabetes")) 20 ≠ [] := by
  exact ⟨rfl, by decide⟩

/-- C8 (amended): for a term that is non-blank and not cached, the
diagnosis client answers a non-2xx response or a non-timeout network
failure from the embedded static table and caches that fallback answer
under the same cache key (a subsequent read returns it), but a timeout is
re-thrown as an error with nothing cached; the medication client has no
static fallback and propagates every one of the three failures as an
error. -/
theorem fallback_spec :
    (∀ (cache : List (String × CacheEntry (List Icd10Service.Icd10SearchResult)))
       (term : String) (maxResults : ℕ) (now : ℤ),
       jsTrim term ≠ "" →
       Icd10Service.getFromCache cache
         ("search:" ++ jsToLower (jsTrim term) ++ ":" ++ toString maxResults) now = none →
       (∀ s : ℕ,
          Icd10Service.searchIcd10Code cache term maxResults now (.httpError s)
            = (.ok (Icd10Service.getFallbackSearchResults (jsToLower (jsTrim term)) maxResults),
               Icd10Service.setCache cache
                 ("search:" ++ jsToLower (jsTrim term) ++ ":" ++ toString maxResults)
                 (Icd10Service.getFallbackSearchResults (jsToLower (jsTrim term)) maxResults)
                 now)) ∧
       (Icd10Service.searchIcd10Code cache term maxResults now .netError
          = (.ok (Icd10Service.getFallbackSearchResults (jsToLower (jsTrim term)) maxResults),
             Icd10Service.setCache cache
               ("search:" ++ jsToLower (jsTrim term) ++ ":" ++ toString maxResults)
               (Icd10Service.getFallbackSearchResults (jsToLower (jsTrim term)) maxResults)
               now)) ∧
       (∀ s : ℕ,
          Icd10Service.getFromCache
            (Icd10Service.searchIcd10Code cache term maxResults now (.httpError s)).2
            ("search:" ++ jsToLower (jsTrim term) ++ ":" ++ toString maxResults) now
            = some (Icd10Service.getFallbackSearchResults (jsToLower (jsTrim term)) maxResults)) ∧
       (Icd10Service.searchIcd10Code cache term maxResults now .timeout
          = (.error "ICD-10 search request timed out", cache))) ∧
    (∀ (st : MedicationService.MedSvcState) (limits : MedicationService.ApiLimits)
       (name : String) (maxResults : ℕ) (now : ℤ) (s : ℕ),
       jsTrim name ≠ "" →
       MedicationService.getFromCache st.cache
         ("search:" ++ jsToLower (jsTrim name) ++ ":" ++ toString maxResults) now = none →
       (∃ e, (MedicationService.searchMedication st limits name maxResults now .timeout).1
          = .error e) ∧
       (∃ e, (MedicationService.searchMedication st limits name maxResults now .netError).1
          = .error e) ∧
       (∃ e, (MedicationService.searchMedication st limits name maxResults now
          (.httpError s)).1 = .error e)) := by
  constructor
  · intro cache term maxResults now hterm hmiss
    have hbranch : ∀ outcome,
        Icd10Service.searchIcd10Code cache term maxResults now outcome
          = (match outcome with
             | .httpError _ =>
               (.ok (Icd10Service.getFallbackSearchResults (jsToLower (jsTrim term)) maxResults),
                Icd10Service.setCache cache
                  ("search:" ++ jsToLower (jsTrim term) ++ ":" ++ toString maxResults)
                  (Icd10Service.getFallbackSearchResults (jsToLower (jsTrim term)) maxResults)
                  now)
             | .timeout => (.error "ICD-10 search request timed out", cache)
             | .netError =>
               (.ok (Icd10Service.getFallbackSearchResults (jsToLower (jsTrim term)) maxResults),
                Icd10Service.setCache cache
                  ("search:" ++ jsToLower (jsTrim term) ++ ":" ++ toString maxResults)
                  (Icd10Service.getFallbackSearchResults (jsToLower (jsTrim term)) maxResults)
                  now)
             | .apiErrorPayload _ =>
               (.ok (Icd10Service.getFallbackSearchResults (jsToLower (jsTrim term)) maxResults),
                Icd10Service.setCache cache
                  ("search:" ++ jsToLower (jsTrim term) ++ ":" ++ toString maxResults)
                  (Icd10Service.getFallbackSearchResults (jsToLower (jsTrim term)) maxResults)
                  now)
             | .success payload =>
               (.ok (payload.take maxResults),
                Icd10Service.setCache cache
                  ("search:" ++ jsToLower (jsTrim term) ++ ":" ++ toString maxResults)
                  payload now)) := by
      intro outcome
      unfold Icd10Service.searchIcd10Code
      rw [if_neg hterm]
      dsimp only
      rw [hmiss]
    refine ⟨fun s => hbranch (.httpError s), hbranch .netError, fun s => ?_, hbranch .timeout⟩
    rw [hbranch (.httpError s)]
    exact icd10_read_after_setCache _ _ _ _
  · intro st limits name maxResults now s hname hmiss
    have hbranch : ∀ outcome, ∃ st',
        MedicationService.searchMedication st limits name maxResults now outcome
          = ((match MedicationService.checkRateLimit st.rateLimit limits now with
              | .error e => .error e
              | .ok _ =>
                match outcome with
                | .timeout => .error "Medication search request timed out"
                | .netError => .error "Failed to search medications: fetch failed"
                | .httpError status =>
                  .error ("Failed to search medications: OpenFDA API request failed: "
                    ++ toString status)
                | .apiErrorPayload msg =>
                  .error ("Failed to search medications: OpenFDA API error: " ++ msg)
                | .success payload => .ok (payload.take maxResults)), st') := by
      intro outcome
      unfold MedicationService.searchMedication
      rw [if_neg hname]
      dsimp only
      rw [hmiss]
      cases MedicationService.checkRateLimit st.rateLimit limits now with
      | error e => exact ⟨_, rfl⟩
      | ok rl1 => cases outcome <;> exact ⟨_, rfl⟩
    refine ⟨?_, ?_, ?_⟩
    · obtain ⟨st', h⟩ := hbranch .timeout
      rw [h]
      cases MedicationService.checkRateLimit st.rateLimit limits now <;> exact ⟨_, rfl⟩
    · obtain ⟨st', h⟩ := hbranch .netError
      rw [h]
      cases MedicationService.checkRateLimit st.rateLimit limits now <;> exact ⟨_, rfl⟩
    · obtain ⟨st', h⟩ := hbranch (.httpError s)
      rw [h]
      cases MedicationService.checkRateLimit st.rateLimit limits now <;> exact ⟨_, rfl⟩

/-- Witness for C8: the fallback answer and cache write for a 500 response
on `diabetes`, and the medication client's error propagation on a network
failure, at concrete inputs. -/
theorem fallback_spec_witness :
    Icd10Service.searchIcd10Code [] "diabetes" 20 0 (.httpError 500)
      = (.ok (Icd10Service.getFallbackSearchResults (jsToLower (jsTrim "diabetes")) 20),
         Icd10Service.setCache [] ("search:" ++ jsToLower (jsTrim "diabetes") ++ ":" ++ toString 20)
           (Icd10Service.getFallbackSearchResults (jsToLower (jsTrim "diabetes")) 20) 0) ∧
    (∃ e, (MedicationService.searchMedication (MedicationService.initialState 0)
        MedicationService.standardLimits "aspirin" 10 0 .netError).1 = .error e) :=
  ⟨(fallback_spec.1 [] "diabetes" 20 0 (by decide) (by decide)).1 500,
   (fallback_spec.2 (MedicationService.initialState 0) MedicationService.standardLimits
      "aspirin" 10 0 0 (by decide) (by decide)).2.1⟩

theorem getFallbackValidationResult_of_format (code : String)
    (hfmt : Icd10Service.isIcd10Format code = true) :
    (Icd10Service.getFallbackValidationResult code).isValid = true ∧
    (Icd10Service.getFallbackValidationResult code).specialty
      = some (Icd10Service.determineSpecialty code) ∧
    (Icd10Service.getFallbackValidationResult code).description.isSome = true ∧
    (Icd10Service.getFallbackValidationResult code).category.isSome = true := by
  rcases hfind : Icd10Service.knownCodes.find? (fun e => e.1 = code) with _ | known <;>
    unfold Icd10Service.getFallbackValidationResult <;> rw [hfind] <;> dsimp only
  · rw [if_pos hfmt]
    exact ⟨rfl, rfl, rfl, rfl⟩
  · exact ⟨rfl, rfl, rfl, rfl⟩

/-- C9 (counterexample): `A12` matches the ICD-10 lexical pattern, yet
(1) when the remote validation call times out, `validateIcd10Code` throws
`ICD-10 validation request timed out` instead of returning a degraded
valid result — the pipeline IS blocked by this kind of service failure —
and (2) when the remote call succeeds but reports no exact match for the
code, the returned result has `isValid = false` with no metadata, not
`isValid = true`. -/
theorem C9_counterexample :
    Icd10Service.isIcd10Format "A12" = true ∧
    Icd10Service.validateIcd10Code [] "A12" 0 .timeout
      = (.error "ICD-10 validation request timed out", []) ∧
    (Icd10Service.validateIcd10Code [] "A12" 0 (.success [])).1
      = .ok { isValid := false, description := none, category := none, specialty := none } := by
  exact ⟨by decide, rfl, rfl⟩

/-- C9 (amended): for a code whose normalization (trim + uppercase) matches
the ICD-10 lexical pattern and is not cached, a non-2xx response or a
non-timeout network failure of the remote validation yields
`getFallbackValidationResult` of the normalized code: `isValid = true`
with degraded metadata (a description — the table's one for the nine known
codes, else a generic one — and a locally derived category and specialty).
A timeout instead re-throws an error, and a 2xx response without an exact
match for the code yields `isValid = false`: only the non-timeout
unavailability failures are bridged by the fallback. -/
theorem validate_fallback_spec :
    ∀ (vcache : List (String × CacheEntry Icd10Service.Icd10ValidationResult))
      (code : String) (now : ℤ),
      Icd10Service.isIcd10Format (jsToUpper (jsTrim code)) = true →
      Icd10Service.getFromCache vcache ("validate:" ++ jsToUpper (jsTrim code)) now = none →
      (∀ s : ℕ,
         (Icd10Service.validateIcd10Code vcache code now (.httpError s)).1
           = .ok (Icd10Service.getFallbackValidationResult (jsToUpper (jsTrim code)))) ∧
      ((Icd10Service.validateIcd10Code vcache code now .netError).1
         = .ok (Icd10Service.getFallbackValidationResult (jsToUpper (jsTrim code)))) ∧
      ((Icd10Service.getFallbackValidationResult (jsToUpper (jsTrim code))).isValid = true ∧
       (Icd10Service.getFallbackValidationResult (jsToUpper (jsTrim code))).specialty
         = some (Icd10Service.determineSpecialty (jsToUpper (jsTrim code))) ∧
       (Icd10Service.getFallbackValidationResult (jsToUpper (jsTrim code))).description.isSome
         = true ∧
       (Icd10Service.getFallbackValidationResult (jsToUpper (jsTrim code))).category.isSome
         = true) ∧
      (Icd10Service.validateIcd10Code vcache code now .timeout
         = (.error "ICD-10 validation request timed out", vcache)) ∧
      (∀ payload : List Icd10Service.Icd10SearchResult,
         payload.find? (fun result => result.code = jsToUpper (jsTrim code)) = none →
         (Icd10Service.validateIcd10Code vcache code now (.success payload)).1
           = .ok { isValid := false, description := none, category := none
                 , specialty := none }) := by
  intro vcache code now hfmt hmiss
  have hne : ¬(jsTrim code = "") := by
    intro h
    rw [h] at hfmt
    exact absurd hfmt (by decide)
  have hbranch : ∀ outcome,
      Icd10Service.validateIcd10Code vcache code now outcome
        = (match outcome with
           | .httpError _ =>
             (.ok (Icd10Service.getFallbackValidationResult (jsToUpper (jsTrim code))),
              Icd10Service.setValidationCache vcache ("validate:" ++ jsToUpper (jsTrim code))
                (Icd10Service.getFallbackValidationResult (jsToUpper (jsTrim code))) now)
           | .timeout => (.error "ICD-10 validation request timed out", vcache)
           | .netError =>
             (.ok (Icd10Service.getFallbackValidationResult (jsToUpper (jsTrim code))),
              Icd10Service.setValidationCache vcache ("validate:" ++ jsToUpper (jsTrim code))
                (Icd10Service.getFallbackValidationResult (jsToUpper (jsTrim code))) now)
           | .apiErrorPayload _ =>
             (.ok (Icd10Service.getFallbackValidationResult (jsToUpper (jsTrim code))),
              Icd10Service.setValidationCache vcache ("validate:" ++ jsToUpper (jsTrim code))
                (Icd10Service.getFallbackValidationResult (jsToUpper (jsTrim code))) now)
           | .success payload =>
             match payload.find? (fun result => result.code = jsToUpper (jsTrim code)) with
             | some exactMatch =>
               (.ok { isValid := true, description := some exactMatch.description
                    , category := some (Icd10Service.categoryOrDerived exactMatch.category
                        (jsToUpper (jsTrim code)))
                    , specialty := some (Icd10Service.determineSpecialty
                        (jsToUpper (jsTrim code))) },
                Icd10Service.setValidationCache vcache ("validate:" ++ jsToUpper (jsTrim code))
                  { isValid := true, description := some exactMatch.description
                  , category := some (Icd10Service.categoryOrDerived exactMatch.category
                      (jsToUpper (jsTrim code)))
                  , specialty := some (Icd10Service.determineSpecialty
                      (jsToUpper (jsTrim code))) } now)
             | none =>
               (.ok { isValid := false, description := none, category := none
                    , specialty := none },
                Icd10Service.setValidationCache vcache ("validate:" ++ jsToUpper (jsTrim code))
                  { isValid := false, description := none, category := none
                  , specialty := none } now)) := by
    intro outcome
    unfold Icd10Service.validateIcd10Code
    rw [if_neg hne]
    dsimp only
    rw [hmiss]
  refine ⟨fun s => congrArg Prod.fst (hbranch (.httpError s)),
    congrArg Prod.fst (hbranch .netError),
    getFallbackValidationResult_of_format _ hfmt,
    hbranch .timeout, fun payload hnomatch => ?_⟩
  rw [hbranch (.success payload)]
  dsimp only
  rw [hnomatch]

/-- Witness for C9: the degraded-but-valid fallback answer for the
format-valid unknown code `A12` on a 503 response, at concrete inputs. -/
theorem validate_fallback_spec_witness :
    (Icd10Service.validateIcd10Code [] "A12" 0 (.httpError 503)).1
      = .ok (Icd10Service.getFallbackValidationResult (jsToUpper (jsTrim "A12"))) ∧
    (Icd10Service.getFallbackValidationResult (jsToUpper (jsTrim "A12"))).isValid = true :=
  ⟨(validate_fallback_spec [] "A12" 0 (by decide) (by decide)).1 503,
   (validate_fallback_spec [] "A12" 0 (by decide) (by decide)).2.2.1.1⟩
